import Mathlib

/-!
# BeQuic client: seek engine, streaming byte buffer and range requests

A shallow embedding of `src/chromium/be_quic_client.cc`: `seek` with
`seek_internal`, `seek_in_buffer` and `seek_from_net`, `request_range`,
`close_current_stream`, `on_stream_created`, `read_buffer` and
`is_buffer_sufficient`.

Conventions of the embedding

* The client object is the record `BeQuicClient`; every member function is a
  pure function from the state before the call to the result and the state
  after it.
* `int64_t` offsets are integers. The sums `off += read_offset_` and
  `off += file_size_` of `seek_in_buffer` are reduced into the range of
  `int64_t` (`addInt64`), and the narrowing conversions of the source
  (`int64_t` to `int` in `seek_internal`, `int` to `size_t` and `size_t` to
  `int` in `read_buffer`) are explicit (`toInt32`, `toSizeT`).
* The constants of `be_quic_define.h` (the `kBeQuicErrorCode_*` values) are not
  among the sources; they are the parameter `ErrorCodes`.
* The transport engine (`BeQuicSpdyClient`, the QUIC session) and the block
  manager are external collaborators. They are records that log the calls
  made on them and carry the answers the engine gives to the next call.
* A posted task followed by `future.get()` is the call of the posted function.
-/

namespace BeQuic

/-! ## Constants -/

/-- The `kBeQuicErrorCode_*` constants used by the client. The header that
defines them is not part of the sources, so their values are a parameter. -/
structure ErrorCodes where
  Success : Int
  Invalid_Param : Int
  Invalid_State : Int
  Null_Pointer : Int
  Timeout : Int
  Eof : Int
  Not_Supported : Int
  Buffer_Not_Hit : Int
  Resolve_Fail : Int
  Connect_Fail : Int
  Fatal_Error : Int
deriving DecidableEq, Repr

/-- The error constants other than `Success`. -/
def ErrorCodes.errors (ec : ErrorCodes) : List Int :=
  [ec.Invalid_Param, ec.Invalid_State, ec.Null_Pointer, ec.Timeout, ec.Eof,
   ec.Not_Supported, ec.Buffer_Not_Hit, ec.Resolve_Fail, ec.Connect_Fail,
   ec.Fatal_Error]

/-- Modelled from the spec: `be_quic_define.h` is missing. The interface returns
`bytes_read | ErrorCode` and `new_offset | ErrorCode` through one `int`, so the
error constants are pairwise distinct negative `int` values and `Success` is
zero (the source initialises its results with the literal `0`). -/
def ErrorCodes.Valid (ec : ErrorCodes) : Prop :=
  ec.Success = 0 ∧ (∀ e ∈ ec.errors, -2147483648 ≤ e ∧ e < 0) ∧ ec.errors.Nodup

instance (ec : ErrorCodes) : Decidable ec.Valid := by
  unfold ErrorCodes.Valid; infer_instance

/-- Modelled from the spec: one assignment of the error taxonomy of section 7
to distinct negative values, used to instantiate statements at concrete
inputs. -/
def exampleCodes : ErrorCodes :=
  { Success := 0, Invalid_Param := -1, Invalid_State := -2, Null_Pointer := -3,
    Timeout := -4, Eof := -5, Not_Supported := -6, Buffer_Not_Hit := -7,
    Resolve_Fail := -8, Connect_Fail := -9, Fatal_Error := -10 }

/-- `#define AVSEEK_SIZE 0x10000`. -/
def AVSEEK_SIZE : Int := 0x10000
/-- `#define SEEK_SET 0`. -/
def SEEK_SET : Int := 0
/-- `#define SEEK_CUR 1`. -/
def SEEK_CUR : Int := 1
/-- `#define SEEK_END 2`. -/
def SEEK_END : Int := 2

/-- `const int kReadBlockSize = 32768;`. -/
def kReadBlockSize : Int := 32768

/-- Conversion of an integer to `int` (32 bit, two's complement). -/
def toInt32 (x : Int) : Int := (x + 2147483648) % 4294967296 - 2147483648

/-- The sum of two `int64_t` values as the machine computes it: the exact sum
reduced into `[-2^63, 2^63)`. -/
def addInt64 (a b : Int) : Int :=
  (a + b + 9223372036854775808) % 18446744073709551616 - 9223372036854775808

/-- Conversion of an integer to `size_t` (64 bit, unsigned). -/
def toSizeT (x : Int) : Nat := (x % 18446744073709551616).toNat

/-! ## Collaborators -/

/-- A `spdy::SpdyHeaderBlock`: an insertion-ordered map from names to values. -/
abbrev HeaderBlock := List (String × String)

/-- The assignment `block[key] = value`: replaces the value of an existing key,
appends a new entry otherwise. -/
def header_set (h : HeaderBlock) (key value : String) : HeaderBlock :=
  if h.any (fun e => e.1 == key) then
    h.map (fun e => if e.1 == key then (e.1, value) else e)
  else h ++ [(key, value)]

/-- Lookup of a header by name. -/
def header_find (h : HeaderBlock) (key : String) : Option String :=
  (h.find? (fun e => e.1 == key)).map (fun e => e.2)

/-- The two reset reasons the client passes to `QuicSession::ResetStream`. -/
inductive QuicRstStreamErrorCode where
  | QUIC_REFUSED_STREAM
  | QUIC_STREAM_CANCELLED
deriving DecidableEq, Repr

/-- One call of `SendRequest(headers, body, fin)`. -/
structure SentRequest where
  headers : HeaderBlock
  body : String
  fin : Bool
deriving DecidableEq, Repr

/-- Modelled from the spec: the transport engine behind `spdy_quic_client_`
(`be_quic_spdy_client.h` and the QUIC library are missing). Section 6 gives its
capability surface: `initialize`, `connect`, `connected`, `send_request` and
stream reset. The record logs the resets, closes and requests made through
it and carries the answers the engine will give: `init_ok` and `connect_ok` are
the results of the next `Initialize()` and `Connect()`, `new_stream_ids` are
the ids the session gives to the streams it creates next. -/
structure BeQuicSpdyClient where
  session_ : Bool
  connected_ : Bool
  init_ok : Bool
  connect_ok : Bool
  new_stream_ids : List Nat
  reset_streams : List (Nat × QuicRstStreamErrorCode)
  closed_streams : List Nat
  sent_requests : List SentRequest
deriving DecidableEq, Repr

/-- Modelled from the spec: `connected()`; a transport is connected when it has
a session whose connection is up. -/
def BeQuicSpdyClient.connected (t : BeQuicSpdyClient) : Bool :=
  t.session_ && t.connected_

/-- Modelled from the spec: `Initialize()` answers `init_ok`. -/
def BeQuicSpdyClient.Initialize (t : BeQuicSpdyClient) : Bool × BeQuicSpdyClient :=
  (t.init_ok, t)

/-- Modelled from the spec: `Connect()` creates the session and answers
`connect_ok`, which is also whether the connection is up afterwards. -/
def BeQuicSpdyClient.Connect (t : BeQuicSpdyClient) : Bool × BeQuicSpdyClient :=
  (t.connect_ok, { t with session_ := true, connected_ := t.connect_ok })

/-- Modelled from the spec: `session->ResetStream(id, reason)`, logged. -/
def BeQuicSpdyClient.ResetStream (t : BeQuicSpdyClient) (id : Nat)
    (reason : QuicRstStreamErrorCode) : BeQuicSpdyClient :=
  { t with reset_streams := t.reset_streams ++ [(id, reason)] }

/-- Modelled from the spec: `session->OnStreamClosed(id)`, logged. -/
def BeQuicSpdyClient.OnStreamClosed (t : BeQuicSpdyClient) (id : Nat) : BeQuicSpdyClient :=
  { t with closed_streams := t.closed_streams ++ [id] }

/-- A call made on the block manager. -/
inductive BlockCall where
  | produce (n : Int)
  | consume (n : Nat)
  | seek (off : Int)
deriving DecidableEq, Repr

/-- Modelled from the spec: the optional block/prefetch manager
(`be_quic_block.h` is missing). Only its call contract belongs to the core, so
the record is the log of the calls made on it. -/
structure BeQuicBlockManager where
  calls : List BlockCall
deriving DecidableEq, Repr

/-- The call `block_manager_->seek(off)`. -/
def BeQuicBlockManager.seek (b : BeQuicBlockManager) (off : Int) : BeQuicBlockManager :=
  { b with calls := b.calls ++ [BlockCall.seek off] }

/-- The call `block_manager_->consume(n)`. -/
def BeQuicBlockManager.consume (b : BeQuicBlockManager) (n : Nat) : BeQuicBlockManager :=
  { b with calls := b.calls ++ [BlockCall.consume n] }

/-- The call `block_manager_->produce(n)`. -/
def BeQuicBlockManager.produce (b : BeQuicBlockManager) (n : Int) : BeQuicBlockManager :=
  { b with calls := b.calls ++ [BlockCall.produce n] }

/-! ## The client state -/

/-- The struct `InternalQuicHeader` of `be_quic_client.h`. -/
structure InternalQuicHeader where
  key : String
  value : String
deriving DecidableEq, Repr

/-- The data members of `BeQuicClient` (`be_quic_client.h`). `task_runner_` is
whether the executor reference is non-null, `response_buff_` is the content of
the stream buffer, oldest byte first. -/
structure BeQuicClient where
  spdy_quic_client_ : Option BeQuicSpdyClient
  header_block_ : HeaderBlock
  url_ : String
  mapped_ip_ : String
  mapped_port_ : Nat
  method_ : String
  headers_ : List InternalQuicHeader
  body_ : String
  verify_certificate_ : Bool
  ietf_draft_version_ : Int
  handshake_version_ : Int
  transport_version_ : Int
  busy_ : Bool
  running_ : Bool
  task_runner_ : Bool
  response_buff_ : List UInt8
  got_first_data_ : Bool
  file_size_ : Int
  read_offset_ : Int
  current_stream_id_ : Nat
  block_size_ : Int
  block_consume_ : Int
  block_manager_ : Option BeQuicBlockManager
deriving DecidableEq, Repr

/-- The state after the constructor: the member initialisers of the header and
the constructor's initialiser list. -/
def BeQuicClient.create : BeQuicClient :=
  { spdy_quic_client_ := none, header_block_ := [], url_ := "", mapped_ip_ := "",
    mapped_port_ := 0, method_ := "", headers_ := [], body_ := "",
    verify_certificate_ := true, ietf_draft_version_ := -1,
    handshake_version_ := -1, transport_version_ := -1, busy_ := false,
    running_ := false, task_runner_ := false, response_buff_ := [],
    got_first_data_ := false, file_size_ := -1, read_offset_ := 0,
    current_stream_id_ := 0, block_size_ := -1, block_consume_ := -1,
    block_manager_ := none }

/-! ## Stream bookkeeping -/

/-- `BeQuicClient::on_stream_created`; the argument is the id of the created
stream, `none` is the null pointer. With an older stream still recorded, the
session resets it with `QUIC_REFUSED_STREAM` and closes it. -/
def on_stream_created (c : BeQuicClient) (stream : Option Nat) : BeQuicClient :=
  match stream with
  | none => c
  | some id =>
    let old_stream_id := c.current_stream_id_
    let c1 := { c with current_stream_id_ := id }
    if old_stream_id = 0 then c1
    else
      match c1.spdy_quic_client_ with
      | none => c1
      | some t =>
        if t.session_ = false then c1
        else
          let t1 := t.ResetStream old_stream_id QuicRstStreamErrorCode.QUIC_REFUSED_STREAM
          let t2 := t1.OnStreamClosed old_stream_id
          { c1 with spdy_quic_client_ := some t2 }

/-- `BeQuicClient::close_current_stream`: the returned flag is the result of
the source function. -/
def close_current_stream (c : BeQuicClient) : Bool × BeQuicClient :=
  match c.spdy_quic_client_ with
  | none => (false, c)
  | some t =>
    if c.current_stream_id_ = 0 then (false, c)
    else if t.session_ = false then (false, c)
    else
      let t1 := t.ResetStream c.current_stream_id_ QuicRstStreamErrorCode.QUIC_STREAM_CANCELLED
      let t2 := t1.OnStreamClosed c.current_stream_id_
      (true, { c with spdy_quic_client_ := some t2, current_stream_id_ := 0 })

/-- Modelled from the spec: `spdy_quic_client_->SendRequest(headers, body, fin)`
(`be_quic_spdy_client.cc` is missing). The request is handed to the transport;
the session then creates the sub-stream that carries it, which reaches the
client as `on_stream_created` (`BeQuicSpdyClientSession::CreateClientStream`).
With no id left in `new_stream_ids` the session creates no stream. -/
def SendRequest (c : BeQuicClient) (headers : HeaderBlock) (body : String)
    (fin : Bool) : BeQuicClient :=
  match c.spdy_quic_client_ with
  | none => c
  | some t =>
    let t1 := { t with sent_requests := t.sent_requests ++ [SentRequest.mk headers body fin] }
    match t1.new_stream_ids with
    | [] => { c with spdy_quic_client_ := some t1 }
    | id :: rest =>
      on_stream_created
        { c with spdy_quic_client_ := some { t1 with new_stream_ids := rest } }
        (some id)

/-! ## Streaming byte buffer -/

/-- `BeQuicClient::is_buffer_sufficient`. -/
def is_buffer_sufficient (c : BeQuicClient) : Bool :=
  let size : Nat := c.response_buff_.length
  if c.file_size_ = -1 then decide (size > 0)
  else if size = 0 then false
  else if c.file_size_ - c.read_offset_ < kReadBlockSize then true
  else if (size : Int) < kReadBlockSize then false
  else true

/-- The result of `read_buffer`: the returned `int`, the bytes written to the
destination, and the client afterwards. -/
structure ReadResult where
  ret : Int
  dst : List UInt8
  client : BeQuicClient
deriving DecidableEq, Repr

/-- `BeQuicClient::read_buffer`. `buf_null` is whether the destination pointer
is null. `wait` is what the worker context does to the client while the caller
is blocked on the condition variable; the caller blocks at most once, and only
when the buffer is not sufficient and `timeout` is not zero. -/
def read_buffer (ec : ErrorCodes) (c : BeQuicClient) (buf_null : Bool)
    (size timeout : Int) (wait : BeQuicClient → BeQuicClient) : ReadResult :=
  if c.running_ = false then ⟨ec.Invalid_State, [], c⟩
  else if buf_null = true ∨ size = 0 then ⟨ec.Invalid_Param, [], c⟩
  else if c.file_size_ > 0 ∧ c.read_offset_ ≥ c.file_size_ then ⟨ec.Eof, [], c⟩
  else
    let c1 :=
      if is_buffer_sufficient c = false then
        (if timeout > 0 then wait c else if timeout < 0 then wait c else c)
      else c
    let read_len : Nat := min (toSizeT size) c1.response_buff_.length
    if read_len = 0 then ⟨0, [], c1⟩
    else
      ⟨toInt32 read_len, c1.response_buff_.take read_len,
        { c1 with
          response_buff_ := c1.response_buff_.drop read_len,
          read_offset_ := c1.read_offset_ + read_len,
          block_manager_ := c1.block_manager_.map (fun b => b.consume read_len) }⟩

/-! ## Range requests -/

/-- The value of the `range` header written by `request_range`. -/
def range_value (start end_ : Int) : String :=
  if end_ > 0 then "bytes=" ++ toString start ++ "-" ++ toString end_
  else "bytes=" ++ toString start ++ "-"

/-- `BeQuicClient::request_range`; the returned `int` is the value stored
through `r`. The source dereferences `spdy_quic_client_` without a check: every
caller checks it first, and the model leaves the client alone when it is
null. -/
def request_range (ec : ErrorCodes) (c : BeQuicClient) (start end_ : Int) :
    Int × BeQuicClient :=
  let ret := ec.Success
  match c.spdy_quic_client_ with
  | none => (ret, c)
  | some t =>
    let send (c1 : BeQuicClient) : BeQuicClient :=
      let range := range_value start end_
      let c2 := { c1 with header_block_ := header_set c1.header_block_ "range" range }
      SendRequest c2 c2.header_block_ "" true
    if t.connected = false then
      let (ok, t1) := t.Initialize
      if ok = false then (ec.Fatal_Error, { c with spdy_quic_client_ := some t1 })
      else
        let (up, t2) := t1.Connect
        if up = true then (ret, send { c with spdy_quic_client_ := some t2 })
        else (ret, { c with spdy_quic_client_ := some t2 })
    else (ret, send c)

/-! ## Seek engine -/

/-- The result of `seek_in_buffer`: the returned value, the value left in
`*target_off`, and the client afterwards. -/
structure SeekInBuffer where
  ret : Int
  target_off : Int
  client : BeQuicClient
deriving DecidableEq, Repr

/-- `BeQuicClient::seek_in_buffer`. `target_off` is the value the caller put in
the out-parameter before the call. -/
def seek_in_buffer (ec : ErrorCodes) (c : BeQuicClient) (off whence : Int)
    (target_off : Int) : SeekInBuffer :=
  if c.file_size_ = -1 then ⟨ec.Not_Supported, target_off, c⟩
  else if whence = AVSEEK_SIZE then ⟨c.file_size_, target_off, c⟩
  else if (whence = SEEK_CUR ∧ off = 0) ∨ (whence = SEEK_SET ∧ off = c.read_offset_) then
    ⟨off, target_off, c⟩
  else if c.file_size_ = -1 ∧ whence = SEEK_END then ⟨ec.Invalid_State, target_off, c⟩
  else
    let moved : Option Int :=
      if whence = SEEK_CUR then some (addInt64 off c.read_offset_)
      else if whence = SEEK_END then some (addInt64 off c.file_size_)
      else if whence ≠ SEEK_SET then none
      else some off
    match moved with
    | none => ⟨ec.Invalid_Param, target_off, c⟩
    | some off =>
      if off < 0 then ⟨ec.Invalid_Param, target_off, c⟩
      else
        let left_size : Int := c.response_buff_.length
        let consume_size : Int := off - c.read_offset_
        if consume_size > 0 ∧ left_size > consume_size then
          ⟨off, target_off,
            { c with
              response_buff_ := c.response_buff_.drop consume_size.toNat,
              read_offset_ := off,
              block_manager_ := c.block_manager_.map (fun b => b.seek off) }⟩
        else ⟨ec.Buffer_Not_Hit, off, c⟩

/-- `BeQuicClient::seek_from_net`. -/
def seek_from_net (ec : ErrorCodes) (c : BeQuicClient) (off : Int) : Int × BeQuicClient :=
  if c.spdy_quic_client_ = none ∨ off < 0 then (-1, c)
  else
    let c1 := (close_current_stream c).2
    let c2 := { c1 with read_offset_ := off }
    let c3 := { c2 with response_buff_ := [] }
    match c3.block_manager_ with
    | some b => (off, { c3 with block_manager_ := some (b.seek off) })
    | none =>
      let (r, c4) := request_range ec c3 off (-1)
      if r ≠ ec.Success then (-1, c4) else (off, c4)

/-- `BeQuicClient::seek_internal`; the returned `int` is the value given to the
promise. The results of `seek_in_buffer` and `seek_from_net` are `int64_t` and
are stored in an `int`. -/
def seek_internal (ec : ErrorCodes) (c : BeQuicClient) (off whence : Int) :
    Int × BeQuicClient :=
  if c.spdy_quic_client_ = none then (ec.Invalid_State, c)
  else
    let r := seek_in_buffer ec c off whence (-1)
    let ret := toInt32 r.ret
    if ret = ec.Buffer_Not_Hit then
      let (ret2, c2) := seek_from_net ec r.client r.target_off
      (toInt32 ret2, c2)
    else (ret, r.client)

/-- `BeQuicClient::seek`: the state gates, then `seek_internal` on the worker
and the wait for its promise. -/
def seek (ec : ErrorCodes) (c : BeQuicClient) (off whence : Int) : Int × BeQuicClient :=
  if c.running_ = false then (ec.Invalid_State, c)
  else if c.task_runner_ = false then (ec.Null_Pointer, c)
  else seek_internal ec c off whence

/-! ## Response metadata -/

/-- The NUL character, the delimiter between the values of a repeated header. -/
def NUL : Char := Char.ofNat 0

/-- Splitting of a character sequence at every occurrence of `sep`; empty
pieces are kept and the empty sequence gives one empty piece. -/
def splitChars (sep : Char) : List Char → List (List Char)
  | [] => [[]]
  | ch :: rest =>
    if ch = sep then [] :: splitChars sep rest
    else
      match splitChars sep rest with
      | [] => [[ch]]
      | piece :: pieces => (ch :: piece) :: pieces

/-- The library function `absl::StrSplit(text, sep)` with a character
delimiter. -/
def StrSplit (text : String) (sep : Char) : List String :=
  (splitChars sep text.data).map String.mk

/-- The library predicate `absl::ascii_isspace`: space, tab, line feed, vertical
tab, form feed and carriage return. -/
def ascii_isspace (ch : Char) : Bool :=
  ch.toNat = 32 || (9 ≤ ch.toNat && ch.toNat ≤ 13)

/-- The library function `absl::StripAsciiWhitespace`. -/
def StripAsciiWhitespace (text : String) : String :=
  String.mk ((text.data.dropWhile ascii_isspace).reverse.dropWhile ascii_isspace).reverse

/-- The value of a sequence of decimal digits, `none` when a character is not a
digit. -/
def parse_digits (acc : Nat) : List Char → Option Nat
  | [] => some acc
  | ch :: rest =>
    if ch.isDigit then parse_digits (acc * 10 + (ch.toNat - 48)) rest else none

/-- The library function `absl::SimpleAtoi` for `uint64_t`: surrounding
whitespace is skipped, a plus sign is accepted, and the call fails on a minus
sign, on an empty number, on a character that is not a digit and on a value
that does not fit 64 bits. -/
def SimpleAtoi (text : String) : Option Nat :=
  let body := (StripAsciiWhitespace text).data
  let digits : Option (List Char) :=
    match body with
    | [] => none
    | ch :: rest =>
      if ch = Char.ofNat 45 then none
      else if ch = Char.ofNat 43 then (if rest = [] then none else some rest)
      else some body
  match digits with
  | none => none
  | some ds =>
    match parse_digits 0 ds with
    | none => none
    | some n => if n < 18446744073709551616 then some n else none

/-- Conversion of an unsigned 64-bit value to `int64_t` (two's complement). -/
def toInt64 (n : Nat) : Int :=
  if n % 18446744073709551616 < 9223372036854775808 then (n % 18446744073709551616 : Nat)
  else ((n % 18446744073709551616 : Nat) : Int) - 18446744073709551616

/-- Conversion of an `int64_t` to `uint64_t`. -/
def toUInt64 (x : Int) : Nat := (x % 18446744073709551616).toNat

/-- The members of `BeQuicSpdyClientStream` the client reads: the stream id, the
response headers, and the two cached lengths. The header that declares the
class is not among the sources. -/
structure BeQuicSpdyClientStream where
  id : Nat
  response_headers : HeaderBlock
  content_length_ : Int
  file_size_ : Int
deriving DecidableEq, Repr

/-- Modelled from the spec: a stream on which nothing has been determined yet;
both lengths hold the unknown sentinel -1 (`be_quic_spdy_client_stream.h` is
missing). -/
def BeQuicSpdyClientStream.create (id : Nat) (headers : HeaderBlock) :
    BeQuicSpdyClientStream :=
  { id := id, response_headers := headers, content_length_ := -1, file_size_ := -1 }

/-- The loop of the library function
`SpdyUtils::ExtractContentLengthFromHeaders` over the values of the
`content-length` header: the length after the loop and whether every value
parsed and agreed. -/
def content_length_loop (content_length : Int) : List String → Int × Bool
  | [] => (content_length, true)
  | value :: rest =>
    match SimpleAtoi value with
    | none => (content_length, false)
    | some new_value =>
      if content_length < 0 then content_length_loop (toInt64 new_value) rest
      else if new_value ≠ toUInt64 content_length then (content_length, false)
      else content_length_loop content_length rest

/-- The library function `SpdyUtils::ExtractContentLengthFromHeaders`: the value
left in `*content_length`. -/
def ExtractContentLengthFromHeaders (content_length : Int) (headers : HeaderBlock) : Int :=
  match header_find headers "content-length" with
  | none => content_length
  | some v => (content_length_loop content_length (StrSplit v NUL)).1

/-- `BeQuicSpdyClientStream::check_content_length`. -/
def check_content_length (s : BeQuicSpdyClientStream) : Int × BeQuicSpdyClientStream :=
  if s.content_length_ > 0 then (s.content_length_, s)
  else if (header_find s.response_headers "content-length").isSome then
    let s1 := { s with content_length_ :=
      (ExtractContentLengthFromHeaders s.content_length_ s.response_headers) }
    (s1.content_length_, s1)
  else (s.content_length_, s)

/-- The loop of `check_file_size` over the segments of the `content-range`
header, from the current `file_size_` and `valid` flag: their values when the
loop ends or breaks. -/
def content_range_loop (file_size : Int) (valid : Bool) : List String → Int × Bool
  | [] => (file_size, valid)
  | value :: rest =>
    let parts := StrSplit value (Char.ofNat 47)
    if parts.length ≠ 2 then content_range_loop file_size valid rest
    else
      match SimpleAtoi (parts.getD 1 "") with
      | none => (file_size, valid)
      | some new_value =>
        if file_size < 0 then content_range_loop (toInt64 new_value) true rest
        else if new_value ≠ toUInt64 file_size then (file_size, valid)
        else content_range_loop file_size true rest

/-- `BeQuicSpdyClientStream::check_file_size`. -/
def check_file_size (s : BeQuicSpdyClientStream) : Int × BeQuicSpdyClientStream :=
  if s.file_size_ > 0 then (s.file_size_, s)
  else
    match header_find s.response_headers "content-range" with
    | some content_range_header =>
      let r := content_range_loop s.file_size_ false (StrSplit content_range_header NUL)
      let s1 := { s with file_size_ := r.1 }
      if r.2 = false then (s1.file_size_, s1)
      else
        let s2 := (check_content_length s1).2
        (s2.file_size_, s2)
    | none =>
      let r := check_content_length s
      (r.1, { r.2 with file_size_ := r.1 })

/-! ## Request construction -/

/-- The constants `kMinRequestBlockSize` and `kDefaultRequestBlockSize` used by
`set_first_range_header`. The header that defines them is not among the
sources, so their values are a parameter. -/
structure BlockSizes where
  kMinRequestBlockSize : Int
  kDefaultRequestBlockSize : Int
deriving DecidableEq, Repr

/-- Modelled from the spec: one assignment of the two block constants, a minimum
of 32 KiB and a default window of 1 MiB, used to instantiate statements at
concrete inputs. The end-to-end example of section 8 (`block_size` 65536 gives
`bytes=0-65535`) needs a minimum of at most 65536. -/
def exampleSizes : BlockSizes :=
  { kMinRequestBlockSize := 32768, kDefaultRequestBlockSize := 1048576 }

/-- `BeQuicClient::set_first_range_header`: the returned end offset and the
client afterwards. -/
def set_first_range_header (bs : BlockSizes) (c : BeQuicClient) : Int × BeQuicClient :=
  if c.block_size_ = 0 then (-1, c)
  else
    let end_offset : Int :=
      if c.block_size_ < 0 ∨ c.block_size_ < bs.kMinRequestBlockSize then
        bs.kDefaultRequestBlockSize - 1
      else c.block_size_ - 1
    let range := "bytes=0" ++ "-" ++ toString end_offset
    (end_offset, { c with header_block_ := header_set c.header_block_ "range" range })

/-- What the client reads from a parsed `GURL`. -/
structure GURL where
  scheme : String
  host : String
  path : String
  has_query : Bool
  query : String
  EffectiveIntPort : Int
deriving DecidableEq, Repr

/-- Modelled from the spec: the collaborators of the worker that are outside the
core (section 6). `gurl` is the url parser, `resolve` tells whether host
resolution succeeds, `new_client` is the transport object the constructor of
`BeQuicSpdyClient` gives, and `block_manager_init` is the result of
`BeQuicBlockManager::init(file_size, block_size, block_consume)`. -/
structure Externals where
  gurl : String → GURL
  resolve : String → Bool
  new_client : BeQuicSpdyClient
  block_manager_init : Int → Int → Int → Bool

/-- The four pseudo-header assignments of `open_internal` and
`request_internal`. -/
def set_pseudo_headers (block : HeaderBlock) (method : String) (gurl : GURL) : HeaderBlock :=
  let path := if gurl.has_query = true then gurl.path ++ "?" ++ gurl.query else gurl.path
  let b1 := header_set block ":method" method
  let b2 := header_set b1 ":scheme" gurl.scheme
  let b3 := header_set b2 ":authority" gurl.host
  header_set b3 ":path" path

/-- The loop over the caller headers of `open_internal` and `request_internal`
(the same loop in both): an entry whose key or value is empty is skipped, the
others are stripped and assigned. -/
def add_caller_headers (block : HeaderBlock) : List InternalQuicHeader → HeaderBlock
  | [] => block
  | header :: rest =>
    if header.key = "" ∨ header.value = "" then add_caller_headers block rest
    else
      let key := StripAsciiWhitespace header.key
      let value := StripAsciiWhitespace header.value
      add_caller_headers (header_set block key value) rest

/-- The library call `base::SplitString(text, ".", TRIM_WHITESPACE,
SPLIT_WANT_NONEMPTY)`. -/
def SplitString (text : String) : List String :=
  ((StrSplit text (Char.ofNat 46)).map StripAsciiWhitespace).filter (fun piece => piece ≠ "")

/-- `BeQuicClient::open_internal`. The version selectors and the certificate
flag only reach the constructor of the transport, which is `new_client`; the
timing marks are not part of the model. -/
def open_internal (ec : ErrorCodes) (bs : BlockSizes) (x : Externals) (c : BeQuicClient)
    (url mapped_ip method : String) (headers : List InternalQuicHeader) (body : String) :
    Int × BeQuicClient :=
  let gurl := x.gurl url
  if mapped_ip ≠ "" ∧ (SplitString mapped_ip).length ≠ 4 then (ec.Invalid_Param, c)
  else if mapped_ip = "" ∧ x.resolve gurl.host = false then (ec.Resolve_Fail, c)
  else
    let t := match c.spdy_quic_client_ with
      | none => x.new_client
      | some t => t
    let (ok, t1) := t.Initialize
    if ok = false then (ec.Fatal_Error, { c with spdy_quic_client_ := some t1 })
    else
      let (up, t2) := t1.Connect
      if up = false then (ec.Connect_Fail, { c with spdy_quic_client_ := some t2 })
      else
        let c1 := { c with spdy_quic_client_ := some t2 }
        let block := add_caller_headers (set_pseudo_headers c1.header_block_ method gurl) headers
        let c2 := { c1 with header_block_ := block }
        let c3 := (set_first_range_header bs c2).2
        (ec.Success, SendRequest c3 c3.header_block_ body true)

/-- `BeQuicClient::request_internal`; the returned `int` is the value given to
the promise. -/
def request_internal (ec : ErrorCodes) (bs : BlockSizes) (x : Externals) (c : BeQuicClient)
    (url method : String) (headers : List InternalQuicHeader) (body : String) :
    Int × BeQuicClient :=
  match c.spdy_quic_client_ with
  | none => (ec.Invalid_State, c)
  | some _ =>
    let c1 := { c with url_ := url, method_ := method, headers_ := headers, body_ := body }
    let c2 := (close_current_stream c1).2
    let c3 := { c2 with got_first_data_ := false, file_size_ := -1, read_offset_ := 0 }
    let c4 := { c3 with response_buff_ := [] }
    let c5 := { c4 with block_manager_ := none }
    let gurl := x.gurl url
    let block := add_caller_headers (set_pseudo_headers [] method gurl) headers
    let c6 := { c5 with header_block_ := block }
    let r := set_first_range_header bs c6
    request_range ec r.2 0 r.1

/-! ## Lifecycle -/

/-- The result of `open`: the returned `int`, the client afterwards (with the
writes of the invoking thread) and whether `Start()` was called, that is
whether a worker thread was created. -/
structure OpenCall where
  ret : Int
  client : BeQuicClient
  started : Bool
deriving DecidableEq, Repr

/-- `BeQuicClient::open`. `ip` is `none` for the null pointer. A promise exists
exactly when `timeout` is not zero; `promised` is the value the worker gives to
it and `in_time` tells whether that happens before the deadline. -/
def open_ (ec : ErrorCodes) (c : BeQuicClient) (url : String) (ip : Option String)
    (port : Nat) (method : String) (headers : List InternalQuicHeader) (body : String)
    (verify_certificate : Bool)
    (ietf_draft_version handshake_version transport_version : Int)
    (block_size block_consume timeout : Int) (promised : Int) (in_time : Bool) : OpenCall :=
  if url = "" then ⟨ec.Invalid_Param, c, false⟩
  else if c.busy_ = true then ⟨ec.Invalid_State, c, false⟩
  else
    let c1 := { c with
      url_ := url,
      mapped_ip_ := (match ip with
        | none => ""
        | some s => s),
      mapped_port_ := port,
      method_ := method,
      headers_ := headers,
      body_ := body,
      verify_certificate_ := verify_certificate,
      ietf_draft_version_ := ietf_draft_version,
      handshake_version_ := handshake_version,
      transport_version_ := transport_version,
      block_size_ := block_size,
      block_consume_ := block_consume }
    let c2 := { c1 with busy_ := true }
    if timeout = 0 then ⟨0, c2, true⟩
    else if timeout < 0 then ⟨promised, c2, true⟩
    else if in_time = true then ⟨promised, c2, true⟩
    else ⟨ec.Timeout, c2, true⟩

/-- `BeQuicClient::on_stream_closed`; the argument is the id of the closed
stream, `none` is the null pointer. -/
def on_stream_closed (c : BeQuicClient) (stream : Option Nat) : BeQuicClient :=
  match stream with
  | none => c
  | some id => if id = c.current_stream_id_ then { c with current_stream_id_ := 0 } else c

/-- The first part of `BeQuicClient::Run`, up to the event loop: the worker is
marked running, the executor is created and `open_internal` runs on the saved
session fields. The returned `int` is the value given to the promise of
`open`. -/
def Run_start (ec : ErrorCodes) (bs : BlockSizes) (x : Externals) (c : BeQuicClient) :
    Int × BeQuicClient :=
  let c1 := { c with running_ := true }
  let c2 := { c1 with task_runner_ := true }
  open_internal ec bs x c2 c2.url_ c2.mapped_ip_ c2.method_ c2.headers_ c2.body_

/-- The last part of `BeQuicClient::Run`, after the event loop has been left.
`closing` are the ids of the streams the transport closes when it is
disconnected; each reaches the client as `on_stream_closed`. -/
def Run_exit (c : BeQuicClient) (closing : List Nat) : BeQuicClient :=
  let c1 :=
    match c.spdy_quic_client_ with
    | none => c
    | some _ =>
      let c0 := closing.foldl (fun d id => on_stream_closed d (some id)) c
      { c0 with spdy_quic_client_ := none }
  let c2 := { c1 with headers_ := [] }
  let c3 := { c2 with url_ := "", method_ := "", body_ := "" }
  let c4 := { c3 with
    verify_certificate_ := true,
    ietf_draft_version_ := -1,
    handshake_version_ := -1,
    transport_version_ := -1 }
  let c5 := { c4 with task_runner_ := false }
  { c5 with running_ := false }

/-- `BeQuicClient::close`. The caller waits until the worker runs, clears
`running_`, asks the event loop to quit and joins the worker, which leaves the
loop and runs the rest of `Run`; then `busy_` is cleared. -/
def close (c : BeQuicClient) (closing : List Nat) : BeQuicClient :=
  if c.busy_ = false then c
  else
    let c1 := { c with running_ := false }
    let c2 := Run_exit c1 closing
    { c2 with busy_ := false }

/-! ## Calls through the executor -/

/-- A closure posted to the executor of the worker. -/
inductive PostedTask where
  | request_internal (url method : String) (headers : List InternalQuicHeader)
      (body : String) (promise : Bool)
  | seek_internal (off whence : Int)
  | get_stats_internal
  | request_range (start end_ : Int)
deriving DecidableEq, Repr

/-- The result of a public call that goes through the executor: the returned
`int`, the client once the posted task, if any, has run, and the tasks the call
posted. -/
structure Call where
  ret : Int
  client : BeQuicClient
  posted : List PostedTask
deriving DecidableEq, Repr

/-- `BeQuicClient::request`. A promise exists exactly when `timeout` is not
zero; `in_time` tells whether the worker fulfils it before the deadline. -/
def request (ec : ErrorCodes) (bs : BlockSizes) (x : Externals) (c : BeQuicClient)
    (url method : String) (headers : List InternalQuicHeader) (body : String)
    (timeout : Int) (in_time : Bool) : Call :=
  if c.running_ = false then ⟨ec.Invalid_State, c, []⟩
  else if c.task_runner_ = false then ⟨ec.Null_Pointer, c, []⟩
  else
    let task := PostedTask.request_internal url method headers body (decide (timeout ≠ 0))
    let r := request_internal ec bs x c url method headers body
    if timeout = 0 then ⟨0, r.2, [task]⟩
    else if timeout < 0 then ⟨r.1, r.2, [task]⟩
    else if in_time = true then ⟨r.1, r.2, [task]⟩
    else ⟨ec.Timeout, r.2, [task]⟩

/-- The tasks `BeQuicClient::seek` posts to the executor. -/
def seek_posted (c : BeQuicClient) (off whence : Int) : List PostedTask :=
  if c.running_ = false then []
  else if c.task_runner_ = false then []
  else [PostedTask.seek_internal off whence]

/-- The counters the client copies from `quic::QuicConnectionStats`. -/
structure QuicConnectionStats where
  packets_lost : Int
  packets_reordered : Int
  srtt_us : Int
  estimated_bandwidth : Int
deriving DecidableEq, Repr

/-- The struct `BeQuicStats` filled by `get_stats`. -/
structure BeQuicStats where
  packets_lost : Int
  packets_reordered : Int
  rtt : Int
  bandwidth : Int
  resolve_time : Int
  connect_time : Int
  first_data_receive_time : Int
deriving DecidableEq, Repr

/-- The timing members of the client: `resolve_time_`, `connect_time_`, and the
time from `start_time_` to `first_data_time_` once the first data has
arrived. -/
structure Timing where
  resolve_time_ : Int
  connect_time_ : Int
  first_data_delta : Option Int
deriving DecidableEq, Repr

/-- `BeQuicClient::get_stats_internal`: the value given to the promise and the
content of `*stats` afterwards. `connection` is the connection of the session
with its counters, `none` when the session has no connection. -/
def get_stats_internal (ec : ErrorCodes) (c : BeQuicClient)
    (connection : Option QuicConnectionStats) (tm : Timing) (stats : BeQuicStats) :
    Int × BeQuicStats :=
  match c.spdy_quic_client_ with
  | none => (ec.Invalid_State, stats)
  | some t =>
    if t.session_ = false then (ec.Null_Pointer, stats)
    else
      match connection with
      | none => (ec.Connect_Fail, stats)
      | some quic_stats =>
        let s1 := { stats with
          packets_lost := quic_stats.packets_lost,
          packets_reordered := quic_stats.packets_reordered,
          rtt := quic_stats.srtt_us,
          bandwidth := quic_stats.estimated_bandwidth,
          resolve_time := tm.resolve_time_,
          connect_time := tm.connect_time_ }
        match tm.first_data_delta with
        | none => (ec.Success, s1)
        | some delta => (ec.Success, { s1 with first_data_receive_time := delta })

/-- The result of `get_stats`: the returned `int`, the content of `*stats`
afterwards (`none` for a null pointer) and the tasks the call posted. The call
writes no member of the client. -/
structure StatsCall where
  ret : Int
  stats : Option BeQuicStats
  posted : List PostedTask
deriving DecidableEq, Repr

/-- `BeQuicClient::get_stats`; `stats` is `none` for the null pointer. -/
def get_stats (ec : ErrorCodes) (c : BeQuicClient) (stats : Option BeQuicStats)
    (connection : Option QuicConnectionStats) (tm : Timing) : StatsCall :=
  if c.running_ = false then ⟨ec.Invalid_State, stats, []⟩
  else
    match stats with
    | none => ⟨ec.Invalid_Param, none, []⟩
    | some out =>
      if c.task_runner_ = false then ⟨ec.Null_Pointer, stats, []⟩
      else
        let r := get_stats_internal ec c connection tm out
        ⟨r.1, some r.2, [PostedTask.get_stats_internal]⟩

/-! ## Data arrival and event sequences -/

/-- A stream-created or stream-closed notification from the transport. -/
inductive StreamEvent where
  | created (stream : Option Nat)
  | closed (stream : Option Nat)
deriving DecidableEq, Repr

/-- The client after one stream notification. -/
def stream_step (c : BeQuicClient) : StreamEvent → BeQuicClient
  | StreamEvent.created stream => on_stream_created c stream
  | StreamEvent.closed stream => on_stream_closed c stream

/-- The client after a sequence of stream notifications. -/
def run_stream_events (c : BeQuicClient) (events : List StreamEvent) : BeQuicClient :=
  events.foldl stream_step c

/-- The result of `on_data`: the client and the stream afterwards, and whether
the waiters of the condition variable were notified. -/
structure DataResult where
  client : BeQuicClient
  stream : Option BeQuicSpdyClientStream
  notified : Bool

/-- `BeQuicClient::on_data`. `stream` and `buf` are `none` for null pointers;
the bytes written are the first `size` bytes of `buf`. -/
def on_data (x : Externals) (c : BeQuicClient) (stream : Option BeQuicSpdyClientStream)
    (buf : Option (List UInt8)) (size : Int) : DataResult :=
  match stream with
  | none => ⟨c, none, false⟩
  | some s =>
    if s.id ≠ c.current_stream_id_ then ⟨c, some s, false⟩
    else
      let first : BeQuicClient × BeQuicSpdyClientStream :=
        if c.got_first_data_ = false then
          let r := check_file_size s
          let c1 := { c with file_size_ := r.1 }
          let c2 := { c1 with got_first_data_ := true }
          let manager : Option BeQuicBlockManager :=
            if x.block_manager_init c2.file_size_ c2.block_size_ c2.block_consume_ = true then
              some (BeQuicBlockManager.mk [])
            else none
          ({ c2 with block_manager_ := manager }, r.2)
        else (c, s)
      match buf with
      | none => ⟨first.1, some first.2, false⟩
      | some bytes =>
        if size > 0 then
          let c3 := { first.1 with
            response_buff_ := (first.1.response_buff_ ++ bytes.take size.toNat) }
          let c4 := { c3 with
            block_manager_ := (c3.block_manager_.map (fun b => b.produce size)) }
          ⟨c4, some first.2, is_buffer_sufficient c4⟩
        else ⟨first.1, some first.2, false⟩

/-- Something that happens in the worker context. -/
inductive WorkerEvent where
  | seek (off whence : Int)
  | stream_created (stream : Option Nat)
  | stream_closed (stream : Option Nat)
  | data (stream : Option BeQuicSpdyClientStream) (buf : Option (List UInt8)) (size : Int)

/-- The client after one worker event. -/
def worker_step (ec : ErrorCodes) (x : Externals) (c : BeQuicClient) :
    WorkerEvent → BeQuicClient
  | WorkerEvent.seek off whence => (seek ec c off whence).2
  | WorkerEvent.stream_created stream => on_stream_created c stream
  | WorkerEvent.stream_closed stream => on_stream_closed c stream
  | WorkerEvent.data stream buf size => (on_data x c stream buf size).client

/-- Something that happens to the client between two requests: a worker event,
or a `read_buffer` call of the invoking thread, during whose wait the worker
events `during` happen. -/
inductive ClientEvent where
  | worker (e : WorkerEvent)
  | read_buffer (buf_null : Bool) (size timeout : Int) (during : List WorkerEvent)

/-- The client after one event. -/
def client_step (ec : ErrorCodes) (x : Externals) (c : BeQuicClient) :
    ClientEvent → BeQuicClient
  | ClientEvent.worker e => worker_step ec x c e
  | ClientEvent.read_buffer buf_null size timeout during =>
    (read_buffer ec c buf_null size timeout
      (fun d => during.foldl (worker_step ec x) d)).client

/-- The client after a sequence of events. -/
def run_events (ec : ErrorCodes) (x : Externals) (c : BeQuicClient)
    (events : List ClientEvent) : BeQuicClient :=
  events.foldl (client_step ec x) c

/-! ## Frames -/

/-- The client `d` differs from `c` at most in the transport, the header block
and the active stream id. -/
def TransportFrame (c d : BeQuicClient) : Prop :=
  d = { c with
        spdy_quic_client_ := d.spdy_quic_client_,
        header_block_ := d.header_block_,
        current_stream_id_ := d.current_stream_id_ }

/-! ## Offset bookkeeping -/

/-- A connected transport that has sent nothing yet; the session will give the
ids 8 and 12 to the next streams. -/
def exampleTransport : BeQuicSpdyClient :=
  { session_ := true, connected_ := true, init_ok := true, connect_ok := true,
    new_stream_ids := [8, 12], reset_streams := [], closed_streams := [],
    sent_requests := [] }

/-- A running client in the middle of a resource of 1000 bytes: the bytes of the
offsets 100 to 499 are buffered, `read_offset_` is 100 and stream 4 is active. -/
def exampleClient : BeQuicClient :=
  { BeQuicClient.create with
    spdy_quic_client_ := some exampleTransport,
    header_block_ :=
      [(":method", "GET"), (":scheme", "https"), (":authority", "example.org"),
       (":path", "/movie.mp4"), ("range", "bytes=0-1048575")],
    url_ := "https://example.org/movie.mp4",
    method_ := "GET",
    busy_ := true,
    running_ := true,
    task_runner_ := true,
    response_buff_ := (List.range 400).map UInt8.ofNat,
    got_first_data_ := true,
    file_size_ := 1000,
    read_offset_ := 100,
    current_stream_id_ := 4 }

/-- A client whose response carries no length: 500 bytes have arrived, 100 have
been read, and the resource size is still unknown. -/
def unsizedClient : BeQuicClient := { exampleClient with file_size_ := -1 }

/-- A transport whose connection has dropped and whose reconnect fails:
`Initialize()` succeeds and `Connect()` does not. -/
def droppedTransport : BeQuicSpdyClient :=
  { exampleTransport with connected_ := false, connect_ok := false }

/-- The client `exampleClient` on the dropped transport. -/
def droppedClient : BeQuicClient :=
  { exampleClient with spdy_quic_client_ := some droppedTransport }

/-- A client with three bytes buffered at offset 100 of a 1000-byte resource. -/
def smallClient : BeQuicClient := { exampleClient with response_buff_ := [1, 2, 3] }

/-- A client with an empty buffer at offset 100 of a 1000-byte resource. -/
def emptyClient : BeQuicClient := { exampleClient with response_buff_ := [] }

/-- A client that has delivered all 1000 bytes of its resource. -/
def finishedClient : BeQuicClient :=
  { exampleClient with read_offset_ := 1000, response_buff_ := [] }

/-- A client whose resource size is known to be zero, with nothing buffered. -/
def zeroSizeClient : BeQuicClient :=
  { exampleClient with file_size_ := 0, read_offset_ := 0, response_buff_ := [] }

/-- Collaborators for the concrete states: every url parses to
`https://example.org/movie.mp4`, host resolution succeeds, a new transport is
`exampleTransport` and the block manager refuses to start. -/
def exampleExternals : Externals :=
  { gurl := fun _ =>
      { scheme := "https", host := "example.org", path := "/movie.mp4", has_query := false,
        query := "", EffectiveIntPort := 443 },
    resolve := fun _ => true,
    new_client := exampleTransport,
    block_manager_init := fun _ _ _ => false }

/-- A client on which `open` has stored a block size and nothing else has
happened: the state in which the worker runs `open_internal`. -/
def unopenedClient (block_size : Int) : BeQuicClient :=
  { BeQuicClient.create with block_size_ := block_size }

/-- The running client `emptyClient` with the given block size. -/
def streamingClient (block_size : Int) : BeQuicClient :=
  { emptyClient with block_size_ := block_size }

/-- A client in the middle of a session that was opened with an ip override, a
port override and block hints. -/
def overriddenClient : BeQuicClient :=
  { smallClient with
    mapped_ip_ := "10.0.0.1", mapped_port_ := 4433, block_size_ := 65536, block_consume_ := 4 }

/-- A running client with a connected transport and no active stream. -/
def idleStreamClient : BeQuicClient := { emptyClient with current_stream_id_ := 0 }

/-- What happens to `exampleClient` after its first data: a seek miss to 600,
the first data of the replacement stream 8, whose headers announce a total of
2000, and a non-blocking read. -/
def exampleEvents : List ClientEvent :=
  [ClientEvent.worker (WorkerEvent.seek 600 0),
   ClientEvent.worker (WorkerEvent.data
     (some (BeQuicSpdyClientStream.create 8 [("content-range", "bytes 600-999/2000")]))
     (some [1, 2]) 2),
   ClientEvent.read_buffer false 16 0 []]

/-- A running client at offset 100 of a resource of 5000000000 bytes, with an
empty buffer, a connected transport and stream 4 active. -/
def largeClient : BeQuicClient := { emptyClient with file_size_ := 5000000000 }

/-- A sum that stays in the range of `int64_t` is computed exactly. -/
theorem addInt64_of_range {a b : Int} (h1 : -9223372036854775808 ≤ a + b)
    (h2 : a + b < 9223372036854775808) : addInt64 a b = a + b := by
  unfold addInt64; omega

theorem toInt32_of_range {x : Int} (h1 : -2147483648 ≤ x) (h2 : x < 2147483648) :
    toInt32 x = x := by
  unfold toInt32; omega

theorem ErrorCodes.Valid.bound {ec : ErrorCodes} (h : ec.Valid) {e : Int}
    (he : e ∈ ec.errors) : -2147483648 ≤ e ∧ e < 0 := h.2.1 e he

theorem ErrorCodes.Valid.toInt32_eq {ec : ErrorCodes} (h : ec.Valid) {e : Int}
    (he : e ∈ ec.errors) : toInt32 e = e :=
  toInt32_of_range (h.bound he).1 (by have := (h.bound he).2; omega)

theorem ErrorCodes.Valid.buffer_not_hit_neg {ec : ErrorCodes} (h : ec.Valid) :
    ec.Buffer_Not_Hit < 0 := (h.bound (by simp [ErrorCodes.errors])).2

theorem exampleCodes_valid : exampleCodes.Valid := by decide

/-- An absolute seek away from the current offset, with the size known: the
three outcomes of `seek_in_buffer`. -/
theorem seek_in_buffer_set (ec : ErrorCodes) (c : BeQuicClient) (off tgt : Int)
    (hfs : c.file_size_ ≠ -1) (hne : off ≠ c.read_offset_) :
    seek_in_buffer ec c off SEEK_SET tgt =
      if off < 0 then ⟨ec.Invalid_Param, tgt, c⟩
      else if off - c.read_offset_ > 0 ∧ (c.response_buff_.length : Int) > off - c.read_offset_ then
        ⟨off, tgt,
          { c with
            response_buff_ := c.response_buff_.drop (off - c.read_offset_).toNat,
            read_offset_ := off,
            block_manager_ := c.block_manager_.map (fun b => b.seek off) }⟩
      else ⟨ec.Buffer_Not_Hit, off, c⟩ := by
  simp [seek_in_buffer, hfs, hne, SEEK_SET, SEEK_CUR, SEEK_END, AVSEEK_SIZE]

/-- When `seek_in_buffer` does not answer `Buffer_Not_Hit`, `seek_internal`
hands its answer, narrowed to `int`, to the promise. -/
theorem seek_internal_of_answer (ec : ErrorCodes) (c : BeQuicClient) (off whence : Int)
    (ht : c.spdy_quic_client_ ≠ none)
    (h : toInt32 (seek_in_buffer ec c off whence (-1)).ret ≠ ec.Buffer_Not_Hit) :
    seek_internal ec c off whence =
      (toInt32 (seek_in_buffer ec c off whence (-1)).ret,
        (seek_in_buffer ec c off whence (-1)).client) := by
  simp [seek_internal, ht, h]

/-- With a running worker and an executor, `seek` is `seek_internal`. -/
theorem seek_running (ec : ErrorCodes) (c : BeQuicClient) (off whence : Int)
    (hrun : c.running_ = true) (htr : c.task_runner_ = true) :
    seek ec c off whence = seek_internal ec c off whence := by
  simp [seek, hrun, htr]

theorem header_find_set_map (h : HeaderBlock) (key value : String)
    (hany : h.any (fun e => e.1 == key) = true) :
    header_find (h.map (fun e => if e.1 == key then (e.1, value) else e)) key = some value := by
  induction h with
  | nil => simp at hany
  | cons e rest ih =>
    by_cases he : e.1 = key
    · simp [header_find, he]
    · have hrest : rest.any (fun e => e.1 == key) = true := by
        simpa [he] using hany
      have := ih hrest
      simp only [header_find] at this ⊢
      simpa [he, List.find?_cons] using this

theorem header_find_append_new (h : HeaderBlock) (key value : String)
    (hany : ¬ h.any (fun e => e.1 == key) = true) :
    header_find (h ++ [(key, value)]) key = some value := by
  induction h with
  | nil => simp [header_find]
  | cons e rest ih =>
    have he : ¬ e.1 = key := by
      intro he; apply hany; simp [he]
    have hrest : ¬ rest.any (fun e => e.1 == key) = true := by
      intro hr; apply hany; simp only [List.any_cons, hr, Bool.or_true]
    have := ih hrest
    simp only [header_find] at this ⊢
    simpa [he, List.find?_cons] using this

/-- After `block[key] = value` the block maps `key` to `value`. -/
theorem header_find_set (h : HeaderBlock) (key value : String) :
    header_find (header_set h key value) key = some value := by
  unfold header_set
  split
  · rename_i hany; exact header_find_set_map h key value hany
  · rename_i hany; exact header_find_append_new h key value hany

/-- C1 (seek hit). With a running worker, the transport present and the resource
size known, an absolute seek to a target `T` in `[0, 2^31)` that lies ahead of
`read_offset_` and inside the buffered span returns `T`, drops exactly the
first `T - read_offset_` buffered bytes, sets `read_offset_` to `T` and tells
the block manager, if any. Nothing else changes: the transport (its reset log
and its request log), the active stream id and the header block are those of
the state before the call. -/
theorem seek_hit (ec : ErrorCodes) (c : BeQuicClient) (T : Int)
    (hec : ec.Valid) (hrun : c.running_ = true) (htr : c.task_runner_ = true)
    (ht : c.spdy_quic_client_ ≠ none) (hfs : c.file_size_ ≠ -1)
    (h0 : 0 ≤ T) (h31 : T < 2147483648)
    (h1 : c.read_offset_ < T) (h2 : T < c.read_offset_ + c.response_buff_.length) :
    seek ec c T SEEK_SET =
      (T, { c with
            response_buff_ := c.response_buff_.drop (T - c.read_offset_).toNat,
            read_offset_ := T,
            block_manager_ := c.block_manager_.map (fun b => b.seek T) }) := by
  have hb := hec.buffer_not_hit_neg
  have hT : toInt32 T = T := toInt32_of_range (by omega) h31
  have hhit : T - c.read_offset_ > 0 ∧ (c.response_buff_.length : Int) > T - c.read_offset_ := by
    constructor <;> omega
  have hsb := seek_in_buffer_set ec c T (-1) hfs (by omega)
  rw [if_neg (by omega), if_pos hhit] at hsb
  rw [seek_running ec c T SEEK_SET hrun htr, seek_internal_of_answer ec c T SEEK_SET ht, hsb, hT]
  rw [hsb, hT]; omega

/-- Witness of C1: the buffer holds the offsets `[100, 500)`, `read_offset_` is
100, and `seek(300, SEEK_SET)` returns 300, keeps the last 200 bytes and leaves
the transport and the active stream alone. -/
theorem seek_hit_witness :
    seek exampleCodes exampleClient 300 SEEK_SET =
      (300, { exampleClient with
              response_buff_ := exampleClient.response_buff_.drop (300 - 100 : Int).toNat,
              read_offset_ := 300,
              block_manager_ := none }) :=
  seek_hit exampleCodes exampleClient 300 exampleCodes_valid rfl rfl (by decide) (by decide)
    (by decide) (by decide) (by decide) (by simp [exampleClient])

/-- While the resource size is unknown `seek_in_buffer` answers `Not_Supported`,
whatever the whence and the offset. -/
theorem seek_in_buffer_unknown (ec : ErrorCodes) (c : BeQuicClient) (off whence tgt : Int)
    (hfs : c.file_size_ = -1) :
    seek_in_buffer ec c off whence tgt = ⟨ec.Not_Supported, tgt, c⟩ := by
  simp [seek_in_buffer, hfs]

/-- While the resource size is unknown a seek on a running client with a
transport returns `Not_Supported` and changes nothing. -/
theorem seek_unknown_size (ec : ErrorCodes) (c : BeQuicClient) (off whence : Int)
    (hec : ec.Valid) (hrun : c.running_ = true) (htr : c.task_runner_ = true)
    (ht : c.spdy_quic_client_ ≠ none) (hfs : c.file_size_ = -1) :
    seek ec c off whence = (ec.Not_Supported, c) := by
  have hN : toInt32 ec.Not_Supported = ec.Not_Supported :=
    hec.toInt32_eq (by simp [ErrorCodes.errors])
  have hne : ec.Not_Supported ≠ ec.Buffer_Not_Hit := by
    intro heq
    have := hec.2.2
    simp [ErrorCodes.errors, heq] at this
  rw [seek_running ec c off whence hrun htr, seek_internal_of_answer ec c off whence ht]
  · rw [seek_in_buffer_unknown ec c off whence (-1) hfs, hN]
  · rw [seek_in_buffer_unknown ec c off whence (-1) hfs, hN]; exact hne

/-- The fast path of `seek_in_buffer` for a relative seek by zero: the answer is
the offset argument, zero. -/
theorem seek_in_buffer_cur_zero (ec : ErrorCodes) (c : BeQuicClient) (tgt : Int)
    (hfs : c.file_size_ ≠ -1) :
    seek_in_buffer ec c 0 SEEK_CUR tgt = ⟨0, tgt, c⟩ := by
  simp [seek_in_buffer, hfs, SEEK_CUR, AVSEEK_SIZE]

/-- With the size known, `seek(0, SEEK_CUR)` takes the fast path: it returns the
offset argument, zero, and changes nothing. -/
theorem seek_cur_zero_known (ec : ErrorCodes) (c : BeQuicClient)
    (hec : ec.Valid) (hrun : c.running_ = true) (htr : c.task_runner_ = true)
    (ht : c.spdy_quic_client_ ≠ none) (hfs : c.file_size_ ≠ -1) :
    seek ec c 0 SEEK_CUR = (0, c) := by
  have hb := hec.buffer_not_hit_neg
  have h0 : toInt32 0 = 0 := by decide
  rw [seek_running ec c 0 SEEK_CUR hrun htr, seek_internal_of_answer ec c 0 SEEK_CUR ht]
  · rw [seek_in_buffer_cur_zero ec c (-1) hfs, h0]
  · rw [seek_in_buffer_cur_zero ec c (-1) hfs, h0]; omega

/-- C3 (amended). For every client with a running worker, `seek(0, SEEK_CUR)`
leaves the whole client unchanged: the buffer, `read_offset_`, the active
stream id, the header block and the transport with its request log. While the
resource size is unknown (executor and transport present) it returns
`Not_Supported`. -/
theorem seek_cur_zero (ec : ErrorCodes) (c : BeQuicClient) (hec : ec.Valid)
    (hrun : c.running_ = true) :
    (seek ec c 0 SEEK_CUR).2 = c ∧
    (c.task_runner_ = true → c.spdy_quic_client_ ≠ none → c.file_size_ = -1 →
      (seek ec c 0 SEEK_CUR).1 = ec.Not_Supported) := by
  refine ⟨?_, fun htr ht hfs => by rw [seek_unknown_size ec c 0 SEEK_CUR hec hrun htr ht hfs]⟩
  by_cases htr : c.task_runner_ = true
  · by_cases ht : c.spdy_quic_client_ = none
    · simp [seek, seek_internal, hrun, htr, ht]
    · by_cases hfs : c.file_size_ = -1
      · rw [seek_unknown_size ec c 0 SEEK_CUR hec hrun htr ht hfs]
      · rw [seek_cur_zero_known ec c hec hrun htr ht hfs]
  · simp [seek, hrun, htr]

/-- Witness of C3 (amended): on the client whose size is still unknown,
`seek(0, SEEK_CUR)` changes nothing and returns `Not_Supported`. -/
theorem seek_cur_zero_witness :
    (seek exampleCodes unsizedClient 0 SEEK_CUR).2 = unsizedClient ∧
    (seek exampleCodes unsizedClient 0 SEEK_CUR).1 = exampleCodes.Not_Supported :=
  ⟨(seek_cur_zero exampleCodes unsizedClient exampleCodes_valid rfl).1,
    (seek_cur_zero exampleCodes unsizedClient exampleCodes_valid rfl).2 rfl (by decide) rfl⟩

/-- Counterexample to C3 as stated: `read_offset_` is 100 in both clients. With
the size unknown `seek(0, SEEK_CUR)` returns `Not_Supported`; with the size
known it returns the offset argument 0. Neither is the current read offset. -/
theorem seek_cur_zero_counterexample :
    (seek exampleCodes unsizedClient 0 SEEK_CUR).1 = exampleCodes.Not_Supported ∧
    (seek exampleCodes unsizedClient 0 SEEK_CUR).1 ≠ unsizedClient.read_offset_ ∧
    (seek exampleCodes exampleClient 0 SEEK_CUR).1 = 0 ∧
    (seek exampleCodes exampleClient 0 SEEK_CUR).1 ≠ exampleClient.read_offset_ := by
  rw [seek_unknown_size exampleCodes unsizedClient 0 SEEK_CUR exampleCodes_valid rfl rfl
      (by decide) rfl,
    seek_cur_zero_known exampleCodes exampleClient exampleCodes_valid rfl rfl (by decide)
      (by decide)]
  decide

/-- A reconnect whose `Connect()` fails inside `request_range`: nothing is sent
and the value stored through `r` is `Success`. -/
theorem request_range_connect_failed (ec : ErrorCodes) (c : BeQuicClient)
    (t : BeQuicSpdyClient) (start end_ : Int) (ht : c.spdy_quic_client_ = some t)
    (hd : t.connected = false) (hi : t.init_ok = true) (hc : t.connect_ok = false) :
    request_range ec c start end_ =
      (ec.Success,
        { c with spdy_quic_client_ := some { t with session_ := true, connected_ := false } }) := by
  simp [request_range, ht, hd, hi, hc, BeQuicSpdyClient.Initialize, BeQuicSpdyClient.Connect]

/-- An absolute seek that misses the buffer goes to the network. -/
theorem seek_set_miss (ec : ErrorCodes) (c : BeQuicClient) (T : Int)
    (hec : ec.Valid) (hrun : c.running_ = true) (htr : c.task_runner_ = true)
    (ht : c.spdy_quic_client_ ≠ none) (hfs : c.file_size_ ≠ -1)
    (h0 : 0 ≤ T) (hne : T ≠ c.read_offset_)
    (hmiss : ¬ (c.read_offset_ < T ∧ T < c.read_offset_ + c.response_buff_.length)) :
    seek ec c T SEEK_SET = (toInt32 (seek_from_net ec c T).1, (seek_from_net ec c T).2) := by
  have hB : toInt32 ec.Buffer_Not_Hit = ec.Buffer_Not_Hit :=
    hec.toInt32_eq (by simp [ErrorCodes.errors])
  have hsb := seek_in_buffer_set ec c T (-1) hfs hne
  rw [if_neg (by omega), if_neg (by omega)] at hsb
  rw [seek_running ec c T SEEK_SET hrun htr]
  simp [seek_internal, ht, hsb, hB]

/-- A seek miss whose reconnect fails at `Connect()`: the seek still returns the
target, and no request has been sent. -/
theorem seek_miss_connect_failed (ec : ErrorCodes) (c : BeQuicClient) (t : BeQuicSpdyClient)
    (T : Int) (hec : ec.Valid) (hrun : c.running_ = true) (htr : c.task_runner_ = true)
    (ht : c.spdy_quic_client_ = some t) (hd : t.connected = false) (hi : t.init_ok = true)
    (hc : t.connect_ok = false) (hbm : c.block_manager_ = none) (hfs : c.file_size_ ≠ -1)
    (h0 : 0 ≤ T) (h31 : T < 2147483648) (hne : T ≠ c.read_offset_)
    (hmiss : ¬ (c.read_offset_ < T ∧ T < c.read_offset_ + c.response_buff_.length)) :
    (seek ec c T SEEK_SET).1 = T ∧
    (seek ec c T SEEK_SET).2.spdy_quic_client_.map (fun t => t.sent_requests)
      = some t.sent_requests := by
  have hT : toInt32 T = T := toInt32_of_range (by omega) h31
  have hcond : ¬ (c.spdy_quic_client_ = none ∨ T < 0) := by
    simp only [ht, reduceCtorEq, false_or]; omega
  rw [seek_set_miss ec c T hec hrun htr (by simp [ht]) hfs h0 hne hmiss]
  unfold seek_from_net
  rw [if_neg hcond]
  by_cases hid : c.current_stream_id_ = 0 <;> by_cases hs : t.session_ = true <;>
    simp_all [seek_from_net, close_current_stream, request_range, BeQuicSpdyClient.connected,
      BeQuicSpdyClient.Initialize, BeQuicSpdyClient.Connect, BeQuicSpdyClient.ResetStream,
      BeQuicSpdyClient.OnStreamClosed]

/-- C5 (the code at the failing input). The transport of `droppedClient` reports
disconnected, its `Initialize()` succeeds and its `Connect()` fails. Then
`request_range(600, -1)` sends nothing and stores `Success` through `r`, and
the seek miss `seek(600, SEEK_SET)` sends nothing and returns 600, the value
of a successful seek. -/
theorem request_range_reconnect_failure_reports_success :
    (request_range exampleCodes droppedClient 600 (-1)).1 = exampleCodes.Success ∧
    ((request_range exampleCodes droppedClient 600 (-1)).2.spdy_quic_client_.map
      (fun t => t.sent_requests)) = some [] ∧
    (seek exampleCodes droppedClient 600 SEEK_SET).1 = 600 ∧
    ((seek exampleCodes droppedClient 600 SEEK_SET).2.spdy_quic_client_.map
      (fun t => t.sent_requests)) = some [] := by
  have h1 := request_range_connect_failed exampleCodes droppedClient droppedTransport 600 (-1)
    rfl rfl rfl rfl
  have h2 := seek_miss_connect_failed exampleCodes droppedClient droppedTransport 600
    exampleCodes_valid rfl rfl rfl rfl rfl rfl rfl (by decide) (by decide) (by decide)
    (by decide) (by simp [droppedClient, exampleClient])
  exact ⟨by rw [h1], by rw [h1]; rfl, h2.1, h2.2⟩

/-- With the size known and off the fast path, `seek_in_buffer` computes the
target and answers `Invalid_Param` for a negative target, the target on a
buffer hit, and `Buffer_Not_Hit` (leaving the target in `*target_off`)
otherwise. -/
theorem seek_in_buffer_move (ec : ErrorCodes) (c : BeQuicClient) (off whence tgt target : Int)
    (hfs : c.file_size_ ≠ -1)
    (hw : (whence = SEEK_SET ∧ off ≠ c.read_offset_ ∧ target = off) ∨
      (whence = SEEK_CUR ∧ off ≠ 0 ∧ target = addInt64 off c.read_offset_) ∨
      (whence = SEEK_END ∧ target = addInt64 off c.file_size_)) :
    seek_in_buffer ec c off whence tgt =
      if target < 0 then ⟨ec.Invalid_Param, tgt, c⟩
      else if target - c.read_offset_ > 0 ∧
          (c.response_buff_.length : Int) > target - c.read_offset_ then
        ⟨target, tgt,
          { c with
            response_buff_ := c.response_buff_.drop (target - c.read_offset_).toNat,
            read_offset_ := target,
            block_manager_ := c.block_manager_.map (fun b => b.seek target) }⟩
      else ⟨ec.Buffer_Not_Hit, target, c⟩ := by
  rcases hw with ⟨hw, hne, rfl⟩ | ⟨hw, hne, rfl⟩ | ⟨hw, rfl⟩
  · simp [seek_in_buffer, hfs, hne, hw, SEEK_SET, SEEK_CUR, SEEK_END, AVSEEK_SIZE]
  · simp [seek_in_buffer, hfs, hne, hw, SEEK_SET, SEEK_CUR, SEEK_END, AVSEEK_SIZE]
  · simp [seek_in_buffer, hfs, hw, SEEK_SET, SEEK_CUR, SEEK_END, AVSEEK_SIZE]

/-- The network path returns its argument or -1. -/
theorem seek_from_net_ret (ec : ErrorCodes) (c : BeQuicClient) (off : Int) :
    (seek_from_net ec c off).1 = off ∨ (seek_from_net ec c off).1 = -1 := by
  unfold seek_from_net
  split
  · right; rfl
  · dsimp only
    split
    · left; rfl
    · split <;> simp

/-- The sums of `seek_in_buffer` at the ends of the range of `int64_t`. At
offset 100 the relative seek by `2^63 - 1` has the sum `-2^63 + 99` and is
rejected as a negative target. With the stored size -2, which is what
`check_file_size` leaves for a total of `2^64 - 2`, the seek
`(-2^63, SEEK_END)` has the sum `2^63 - 2`, misses the buffer and moves
`read_offset_` there. -/
theorem seek_sums_wrap :
    seek exampleCodes smallClient 9223372036854775807 SEEK_CUR
      = (exampleCodes.Invalid_Param, smallClient) ∧
    (seek exampleCodes { emptyClient with file_size_ := -2 }
      (-9223372036854775808) SEEK_END).2.read_offset_ = 9223372036854775806 := by
  decide

/-- C7 (size query). With a running worker and the transport present, for every
offset argument `X`, `seek(X, AVSEEK_SIZE)` returns `Not_Supported` when the
resource size is unknown and the resource size when it is known and below
`2^31`; in both cases the whole client is unchanged, so nothing is cancelled
or sent. -/
theorem seek_size_query (ec : ErrorCodes) (c : BeQuicClient) (X : Int)
    (hec : ec.Valid) (hrun : c.running_ = true) (htr : c.task_runner_ = true)
    (ht : c.spdy_quic_client_ ≠ none) :
    (c.file_size_ = -1 → seek ec c X AVSEEK_SIZE = (ec.Not_Supported, c)) ∧
    (0 ≤ c.file_size_ → c.file_size_ < 2147483648 →
      seek ec c X AVSEEK_SIZE = (c.file_size_, c)) := by
  refine ⟨seek_unknown_size ec c X AVSEEK_SIZE hec hrun htr ht, fun h0 h31 => ?_⟩
  have hb := hec.buffer_not_hit_neg
  have hF : toInt32 c.file_size_ = c.file_size_ := toInt32_of_range (by omega) h31
  have hsb : seek_in_buffer ec c X AVSEEK_SIZE (-1) = ⟨c.file_size_, -1, c⟩ := by
    have : c.file_size_ ≠ -1 := by omega
    simp [seek_in_buffer, this]
  rw [seek_running ec c X AVSEEK_SIZE hrun htr, seek_internal_of_answer ec c X AVSEEK_SIZE ht]
  · rw [hsb, hF]
  · rw [hsb, hF]; omega

/-- Witness of C7: the size query returns 1000 on the client that knows its
resource size and `Not_Supported` on the one that does not; both clients are
unchanged. -/
theorem seek_size_query_witness :
    seek exampleCodes unsizedClient 7 AVSEEK_SIZE = (exampleCodes.Not_Supported, unsizedClient) ∧
    seek exampleCodes exampleClient 7 AVSEEK_SIZE = (1000, exampleClient) :=
  ⟨(seek_size_query exampleCodes unsizedClient 7 exampleCodes_valid rfl rfl (by decide)).1 rfl,
    (seek_size_query exampleCodes exampleClient 7 exampleCodes_valid rfl rfl (by decide)).2
      (by decide) (by decide)⟩

/-- With the size known, an absolute or relative seek whose target lies in
`[0, 2^31)` returns a value that is not negative, or the -1 of a failed network
seek. -/
theorem seek_known_ret (ec : ErrorCodes) (c : BeQuicClient) (off whence : Int)
    (hec : ec.Valid) (hrun : c.running_ = true) (htr : c.task_runner_ = true)
    (ht : c.spdy_quic_client_ ≠ none) (hfs : c.file_size_ ≠ -1)
    (hw : (whence = SEEK_SET ∧ 0 ≤ off ∧ off < 2147483648) ∨
      (whence = SEEK_CUR ∧ 0 ≤ c.read_offset_ + off ∧ c.read_offset_ + off < 2147483648)) :
    0 ≤ (seek ec c off whence).1 ∨ (seek ec c off whence).1 = -1 := by
  have hb := hec.buffer_not_hit_neg
  have hB : toInt32 ec.Buffer_Not_Hit = ec.Buffer_Not_Hit :=
    hec.toInt32_eq (by simp [ErrorCodes.errors])
  have h1 : toInt32 (-1) = -1 := by decide
  -- the fast path
  by_cases hfast : (whence = SEEK_CUR ∧ off = 0) ∨ (whence = SEEK_SET ∧ off = c.read_offset_)
  · have hoff : 0 ≤ off ∧ off < 2147483648 := by
      rcases hw with ⟨_, h⟩ | ⟨hw, _⟩
      · exact h
      · rcases hfast with ⟨_, h⟩ | ⟨h, _⟩
        · omega
        · rw [hw] at h; exact absurd h (by decide)
    have hsb : seek_in_buffer ec c off whence (-1) = ⟨off, -1, c⟩ := by
      have hsz : whence ≠ AVSEEK_SIZE := by
        rcases hw with ⟨hw, _⟩ | ⟨hw, _⟩ <;> rw [hw] <;> decide
      simp [seek_in_buffer, hfs, hsz, hfast]
    have hT : toInt32 off = off := toInt32_of_range (by omega) hoff.2
    rw [seek_running ec c off whence hrun htr, seek_internal_of_answer ec c off whence ht]
    · rw [hsb, hT]; exact Or.inl hoff.1
    · rw [hsb, hT]; omega
  · -- the computed target
    obtain ⟨target, hmove, ht0, ht31⟩ : ∃ target : Int,
        ((whence = SEEK_SET ∧ off ≠ c.read_offset_ ∧ target = off) ∨
          (whence = SEEK_CUR ∧ off ≠ 0 ∧ target = addInt64 off c.read_offset_) ∨
          (whence = SEEK_END ∧ target = addInt64 off c.file_size_)) ∧
        0 ≤ target ∧ target < 2147483648 := by
      rcases hw with ⟨hw, h0, h31⟩ | ⟨hw, h0, h31⟩
      · exact ⟨off, Or.inl ⟨hw, fun h => hfast (Or.inr ⟨hw, h⟩), rfl⟩, h0, h31⟩
      · exact ⟨off + c.read_offset_, Or.inr (Or.inl ⟨hw, fun h => hfast (Or.inl ⟨hw, h⟩),
          (addInt64_of_range (by omega) (by omega)).symm⟩), by omega, by omega⟩
    have hT : toInt32 target = target := toInt32_of_range (by omega) ht31
    have hsb := seek_in_buffer_move ec c off whence (-1) target hfs hmove
    rw [if_neg (by omega)] at hsb
    rw [seek_running ec c off whence hrun htr]
    by_cases hhit : target - c.read_offset_ > 0 ∧
        (c.response_buff_.length : Int) > target - c.read_offset_
    · rw [if_pos hhit] at hsb
      rw [seek_internal_of_answer ec c off whence ht]
      · rw [hsb, hT]; exact Or.inl ht0
      · rw [hsb, hT]; omega
    · rw [if_neg hhit] at hsb
      have hsi : seek_internal ec c off whence =
          (toInt32 (seek_from_net ec c target).1, (seek_from_net ec c target).2) := by
        simp [seek_internal, ht, hsb, hB]
      rw [hsi]
      rcases seek_from_net_ret ec c target with h | h
      · left; simp only [h, hT]; exact ht0
      · right; simp only [h, h1]

/-- C6 (amended). With a running worker and the transport present, every seek
returns `Not_Supported` while the resource size is unknown, whatever the whence
and the offset, and changes nothing. With the size known, an absolute or
relative-to-current seek whose target lies in `[0, 2^31)` does not return
`Not_Supported`, provided that constant is not the -1 that a failed network
seek returns. -/
theorem seek_not_supported (ec : ErrorCodes) (c : BeQuicClient) (off whence : Int)
    (hec : ec.Valid) (hrun : c.running_ = true) (htr : c.task_runner_ = true)
    (ht : c.spdy_quic_client_ ≠ none) :
    (c.file_size_ = -1 → seek ec c off whence = (ec.Not_Supported, c)) ∧
    (c.file_size_ ≠ -1 → ec.Not_Supported ≠ -1 →
      ((whence = SEEK_SET ∧ 0 ≤ off ∧ off < 2147483648) ∨
        (whence = SEEK_CUR ∧ 0 ≤ c.read_offset_ + off ∧ c.read_offset_ + off < 2147483648)) →
      (seek ec c off whence).1 ≠ ec.Not_Supported) := by
  refine ⟨seek_unknown_size ec c off whence hec hrun htr ht, fun hfs hns hw => ?_⟩
  have hneg : ec.Not_Supported < 0 := (hec.bound (by simp [ErrorCodes.errors])).2
  rcases seek_known_ret ec c off whence hec hrun htr ht hfs hw with h | h <;> omega

/-- Witness of C6 (amended): with the size unknown the absolute seek to 5 returns
`Not_Supported`; with the size known the absolute seek to 300 does not. -/
theorem seek_not_supported_witness :
    seek exampleCodes unsizedClient 5 SEEK_SET = (exampleCodes.Not_Supported, unsizedClient) ∧
    (seek exampleCodes exampleClient 300 SEEK_SET).1 ≠ exampleCodes.Not_Supported :=
  ⟨(seek_not_supported exampleCodes unsizedClient 5 SEEK_SET exampleCodes_valid rfl rfl
      (by decide)).1 rfl,
    (seek_not_supported exampleCodes exampleClient 300 SEEK_SET exampleCodes_valid rfl rfl
      (by decide)).2 (by decide) (by decide) (Or.inl ⟨rfl, by decide, by decide⟩)⟩

/-- Counterexample to C6 as stated: the resource size is unknown, the whence is
absolute and the target 5 is not negative, and the seek returns
`Not_Supported`. The same holds for the relative seek by 5. -/
theorem seek_not_supported_counterexample :
    unsizedClient.file_size_ = -1 ∧
    (seek exampleCodes unsizedClient 5 SEEK_SET).1 = exampleCodes.Not_Supported ∧
    (seek exampleCodes unsizedClient 5 SEEK_CUR).1 = exampleCodes.Not_Supported := by
  rw [seek_unknown_size exampleCodes unsizedClient 5 SEEK_SET exampleCodes_valid rfl rfl
      (by decide) rfl,
    seek_unknown_size exampleCodes unsizedClient 5 SEEK_CUR exampleCodes_valid rfl rfl
      (by decide) rfl]
  exact ⟨rfl, rfl, rfl⟩

/-- C9 (amended). For a running client, a non-null destination and a non-zero
size, `read_buffer` returns `Eof` whenever the resource size is positive and
`read_offset_` has reached it, whatever the timeout; nothing is written to the
destination and the client is unchanged. -/
theorem read_buffer_eof (ec : ErrorCodes) (c : BeQuicClient) (size timeout : Int)
    (wait : BeQuicClient → BeQuicClient) (hrun : c.running_ = true) (hsize : size ≠ 0)
    (hfs : 0 < c.file_size_) (hend : c.file_size_ ≤ c.read_offset_) :
    read_buffer ec c false size timeout wait = ⟨ec.Eof, [], c⟩ := by
  simp [read_buffer, hrun, hsize, hfs, hend]

/-- Witness of C9 (amended): with `file_size_` 1000 and `read_offset_` 1000 a
blocking `read_buffer` returns `Eof` at once and changes nothing. -/
theorem read_buffer_eof_witness :
    read_buffer exampleCodes finishedClient false 16 (-1) id
      = ⟨exampleCodes.Eof, [], finishedClient⟩ :=
  read_buffer_eof exampleCodes finishedClient 16 (-1) id rfl (by decide) (by decide)
    (by decide)

/-- Counterexample to C9 as stated: the resource size is known to be 0 and
`read_offset_` is 0, so the position is at the end of the resource, and a
non-blocking `read_buffer` returns 0 and not `Eof`. -/
theorem read_buffer_eof_counterexample :
    zeroSizeClient.file_size_ ≠ -1 ∧
    zeroSizeClient.read_offset_ ≥ zeroSizeClient.file_size_ ∧
    (read_buffer exampleCodes zeroSizeClient false 16 0 id).ret = 0 ∧
    (read_buffer exampleCodes zeroSizeClient false 16 0 id).ret ≠ exampleCodes.Eof := by
  decide

theorem toInt64_of_lt {n : Nat} (h : n < 9223372036854775808) : toInt64 n = n := by
  unfold toInt64
  have h1 : n % 18446744073709551616 = n := Nat.mod_eq_of_lt (by omega)
  rw [h1, if_pos h]

/-- Once a total has been accepted, the rest of the `content-range` loop keeps
it: a later segment is skipped, agrees, or ends the loop. -/
theorem content_range_loop_accepted (file_size : Int) (h : 0 ≤ file_size)
    (segments : List String) :
    content_range_loop file_size true segments = (file_size, true) := by
  induction segments with
  | nil => rfl
  | cons value rest ih =>
    unfold content_range_loop
    have hneg : ¬ file_size < 0 := by omega
    simp only [hneg, if_false]
    split
    · exact ih
    · split
      · rfl
      · split
        · rfl
        · exact ih

/-- `check_content_length` does not touch `file_size_`. -/
theorem check_content_length_file_size (s : BeQuicSpdyClientStream) :
    (check_content_length s).2.file_size_ = s.file_size_ := by
  unfold check_content_length
  split
  · rfl
  · split <;> rfl

/-- A single `content-length` value on a stream whose length is still unknown. -/
theorem check_content_length_single (s : BeQuicSpdyClientStream) (v : String) (n : Nat)
    (hcl : s.content_length_ = -1)
    (hh : header_find s.response_headers "content-length" = some v)
    (hv : StrSplit v NUL = [v]) (hn : SimpleAtoi v = some n)
    (hlt : n < 9223372036854775808) :
    (check_content_length s).1 = n := by
  have h1 : ¬ s.content_length_ > 0 := by omega
  have h2 : (-1 : Int) < 0 := by decide
  simp [check_content_length, ExtractContentLengthFromHeaders, content_length_loop, h1, hh, hv,
    hn, hcl, toInt64_of_lt hlt]

/-- C11. On a stream whose `file_size_` is still the unknown sentinel:
if the `content-range` header is present and its first NUL-separated segment
has the form `<range>/<total>` with a total below `2^63`, `check_file_size`
returns that total, whatever the later segments are (they may agree, disagree,
or not parse); if no `content-range` header is present it returns what
`check_content_length` returns, which is the cached `content_length_` when that
is positive and the value of a single `content-length` header otherwise. -/
theorem check_file_size_extractor (s : BeQuicSpdyClientStream) (hfs : s.file_size_ = -1) :
    (∀ (v first range total : String) (rest : List String) (n : Nat),
      header_find s.response_headers "content-range" = some v →
      StrSplit v NUL = first :: rest →
      StrSplit first (Char.ofNat 47) = [range, total] →
      SimpleAtoi total = some n → n < 9223372036854775808 →
      (check_file_size s).1 = n) ∧
    (header_find s.response_headers "content-range" = none →
      (check_file_size s).1 = (check_content_length s).1 ∧
      (0 < s.content_length_ → (check_file_size s).1 = s.content_length_) ∧
      (∀ (v : String) (n : Nat), s.content_length_ = -1 →
        header_find s.response_headers "content-length" = some v →
        StrSplit v NUL = [v] → SimpleAtoi v = some n → n < 9223372036854775808 →
        (check_file_size s).1 = n)) := by
  have hpos : ¬ s.file_size_ > 0 := by omega
  constructor
  · intro v first range total rest n hcr hsegs hparts hn hlt
    have hloop : content_range_loop s.file_size_ false (StrSplit v NUL) = ((n : Int), true) := by
      rw [hsegs, hfs]
      unfold content_range_loop
      simp only [hparts, List.length_cons, List.length_nil]
      simp [hn, toInt64_of_lt hlt, content_range_loop_accepted]
    simp [check_file_size, hpos, hcr, hloop, check_content_length_file_size]
  · intro hcr
    have hres : (check_file_size s).1 = (check_content_length s).1 := by
      simp [check_file_size, hpos, hcr]
    refine ⟨hres, fun h => ?_, fun v n hcl hh hv hn hlt => ?_⟩
    · rw [hres]; simp [check_content_length, h]
    · rw [hres]; exact check_content_length_single s v n hcl hh hv hn hlt

/-- Witness of C11: the segments `0-99/1000` and `100-199/1000` give 1000, the
segments `0-99/1000` and `100-199/2000` give 1000, and `content-length: 100`
without a `content-range` header gives 100. -/
theorem check_file_size_extractor_witness :
    (check_file_size (BeQuicSpdyClientStream.create 4
      [("content-range", "0-99/1000\x00100-199/1000")])).1 = 1000 ∧
    (check_file_size (BeQuicSpdyClientStream.create 4
      [("content-range", "0-99/1000\x00100-199/2000")])).1 = 1000 ∧
    (check_file_size (BeQuicSpdyClientStream.create 4 [("content-length", "100")])).1 = 100 :=
  ⟨(check_file_size_extractor _ rfl).1 "0-99/1000\x00100-199/1000" "0-99/1000" "0-99" "1000"
      ["100-199/1000"] 1000 (by decide) (by decide) (by decide) (by decide) (by decide),
    (check_file_size_extractor _ rfl).1 "0-99/1000\x00100-199/2000" "0-99/1000" "0-99" "1000"
      ["100-199/2000"] 1000 (by decide) (by decide) (by decide) (by decide) (by decide),
    ((check_file_size_extractor _ rfl).2 (by decide)).2.2 "100" 100 rfl (by decide) (by decide)
      (by decide) (by decide)⟩

/-! ### Request construction -/

/-- C12 (first request window). `set_first_range_header` leaves the client alone
and returns -1 when `block_size_` is zero. Otherwise it sets the `range` header
to `bytes=0-<end>` and returns `<end>`, where `<end>` is `block_size_ - 1` for a
block size that is not negative and not below `kMinRequestBlockSize`, and
`kDefaultRequestBlockSize - 1` for a negative or smaller block size. -/
theorem set_first_range_header_window (bs : BlockSizes) (c : BeQuicClient) :
    (c.block_size_ = 0 → set_first_range_header bs c = (-1, c)) ∧
    (c.block_size_ ≠ 0 → 0 ≤ c.block_size_ → bs.kMinRequestBlockSize ≤ c.block_size_ →
      set_first_range_header bs c =
        (c.block_size_ - 1,
          { c with header_block_ :=
              header_set c.header_block_ "range" ("bytes=0-" ++ toString (c.block_size_ - 1)) }) ∧
      header_find (set_first_range_header bs c).2.header_block_ "range"
        = some ("bytes=0-" ++ toString (c.block_size_ - 1))) ∧
    (c.block_size_ ≠ 0 → (c.block_size_ < 0 ∨ c.block_size_ < bs.kMinRequestBlockSize) →
      set_first_range_header bs c =
        (bs.kDefaultRequestBlockSize - 1,
          { c with header_block_ :=
              (header_set c.header_block_ "range"
                ("bytes=0-" ++ toString (bs.kDefaultRequestBlockSize - 1))) }) ∧
      header_find (set_first_range_header bs c).2.header_block_ "range"
        = some ("bytes=0-" ++ toString (bs.kDefaultRequestBlockSize - 1))) := by
  have hlit : ∀ s : String, "bytes=0" ++ "-" ++ s = "bytes=0-" ++ s := fun s => rfl
  refine ⟨fun h0 => by simp [set_first_range_header, h0], fun h0 h1 h2 => ?_, fun h0 h => ?_⟩
  · have hn : ¬ (c.block_size_ < 0 ∨ c.block_size_ < bs.kMinRequestBlockSize) := by omega
    have heq : set_first_range_header bs c =
        (c.block_size_ - 1,
          { c with header_block_ :=
              header_set c.header_block_ "range" ("bytes=0-" ++ toString (c.block_size_ - 1)) }) := by
      simp only [set_first_range_header, if_neg h0, if_neg hn, hlit]
    exact ⟨heq, by rw [heq]; exact header_find_set _ _ _⟩
  · have heq : set_first_range_header bs c =
        (bs.kDefaultRequestBlockSize - 1,
          { c with header_block_ :=
              (header_set c.header_block_ "range"
                ("bytes=0-" ++ toString (bs.kDefaultRequestBlockSize - 1))) }) := by
      simp only [set_first_range_header, if_neg h0, if_pos h, hlit]
    exact ⟨heq, by rw [heq]; exact header_find_set _ _ _⟩

/-- Witness of C12: a block size of 65536 gives `bytes=0-65535` and the end
offset 65535. -/
theorem set_first_range_header_window_witness :
    (set_first_range_header exampleSizes { BeQuicClient.create with block_size_ := 65536 }).1
      = 65535 ∧
    header_find (set_first_range_header exampleSizes
      { BeQuicClient.create with block_size_ := 65536 }).2.header_block_ "range"
      = some "bytes=0-65535" :=
  ⟨congrArg Prod.fst (((set_first_range_header_window exampleSizes
      { BeQuicClient.create with block_size_ := 65536 }).2.1 (by decide) (by decide)
      (by decide)).1),
    ((set_first_range_header_window exampleSizes
      { BeQuicClient.create with block_size_ := 65536 }).2.1 (by decide) (by decide)
      (by decide)).2⟩

/-! ### Frame facts: what the transport-facing functions leave alone -/

theorem TransportFrame.refl (c : BeQuicClient) : TransportFrame c c := rfl

theorem TransportFrame.trans {c d e : BeQuicClient} (h1 : TransportFrame c d)
    (h2 : TransportFrame d e) : TransportFrame c e := by
  unfold TransportFrame at *
  rw [h2, h1]

theorem TransportFrame.of_eq {c d : BeQuicClient} {t : Option BeQuicSpdyClient}
    {block : HeaderBlock} {id : Nat}
    (h : d = { c with spdy_quic_client_ := t, header_block_ := block,
                      current_stream_id_ := id }) :
    TransportFrame c d := by
  subst h; rfl

/-- `on_stream_created` writes only the transport and the active stream id. -/
theorem on_stream_created_frame (c : BeQuicClient) (stream : Option Nat) :
    TransportFrame c (on_stream_created c stream) := by
  have key : ∀ d, d = on_stream_created c stream → TransportFrame c d := by
    intro d hd
    unfold on_stream_created at hd
    repeat' (first | split at hd | dsimp only at hd)
    all_goals exact TransportFrame.of_eq hd
  exact key _ rfl

/-- `on_stream_closed` writes only the active stream id. -/
theorem on_stream_closed_frame (c : BeQuicClient) (stream : Option Nat) :
    TransportFrame c (on_stream_closed c stream) := by
  have key : ∀ d, d = on_stream_closed c stream → TransportFrame c d := by
    intro d hd
    unfold on_stream_closed at hd
    repeat' (first | split at hd | dsimp only at hd)
    all_goals exact TransportFrame.of_eq hd
  exact key _ rfl

/-- `close_current_stream` writes only the transport and the active stream id. -/
theorem close_current_stream_frame (c : BeQuicClient) :
    TransportFrame c (close_current_stream c).2 := by
  have key : ∀ d, d = (close_current_stream c).2 → TransportFrame c d := by
    intro d hd
    unfold close_current_stream at hd
    repeat' (first | split at hd | dsimp only at hd)
    all_goals exact TransportFrame.of_eq hd
  exact key _ rfl

/-- `SendRequest` writes only the transport and the active stream id. -/
theorem SendRequest_frame (c : BeQuicClient) (headers : HeaderBlock) (body : String)
    (fin : Bool) : TransportFrame c (SendRequest c headers body fin) := by
  have key : ∀ d, d = SendRequest c headers body fin → TransportFrame c d := by
    intro d hd
    unfold SendRequest at hd
    repeat' (first | split at hd | dsimp only at hd)
    · exact TransportFrame.of_eq hd
    · exact TransportFrame.of_eq hd
    · rw [hd]
      exact TransportFrame.trans (TransportFrame.of_eq rfl) (on_stream_created_frame _ _)
  exact key _ rfl

/-- `request_range` writes only the transport, the header block and the active
stream id. -/
theorem request_range_frame (ec : ErrorCodes) (c : BeQuicClient) (start end_ : Int) :
    TransportFrame c (request_range ec c start end_).2 := by
  have key : ∀ d, d = (request_range ec c start end_).2 → TransportFrame c d := by
    intro d hd
    unfold request_range at hd
    repeat' (first | split at hd | dsimp only at hd)
    all_goals first
      | exact TransportFrame.of_eq hd
      | (rw [hd]
         exact TransportFrame.trans (TransportFrame.of_eq rfl) (SendRequest_frame _ _ _ _))
  exact key _ rfl

/-- `SendRequest` on a present transport adds exactly one entry to the request
log and leaves the header block alone. -/
theorem SendRequest_sent (c : BeQuicClient) (t : BeQuicSpdyClient) (headers : HeaderBlock)
    (body : String) (fin : Bool) (ht : c.spdy_quic_client_ = some t) :
    (∃ t1, (SendRequest c headers body fin).spdy_quic_client_ = some t1 ∧
      t1.sent_requests = t.sent_requests ++ [⟨headers, body, fin⟩]) ∧
    (SendRequest c headers body fin).header_block_ = c.header_block_ := by
  rcases hn : t.new_stream_ids with _ | ⟨id, rest⟩ <;>
    by_cases hid : c.current_stream_id_ = 0 <;> by_cases hs : t.session_ = true <;>
    simp [SendRequest, on_stream_created, ht, hn, hid, hs, BeQuicSpdyClient.ResetStream,
      BeQuicSpdyClient.OnStreamClosed]

/-- The header block with which `open_internal` sends its request. -/
theorem open_internal_sends (ec : ErrorCodes) (bs : BlockSizes) (x : Externals)
    (c : BeQuicClient) (url method : String) (headers : List InternalQuicHeader)
    (body : String) (hres : x.resolve (x.gurl url).host = true)
    (hnew : c.spdy_quic_client_ = none) (hinit : x.new_client.init_ok = true)
    (hconn : x.new_client.connect_ok = true) :
    (open_internal ec bs x c url "" method headers body).1 = ec.Success ∧
    (∃ t1, (open_internal ec bs x c url "" method headers body).2.spdy_quic_client_ = some t1 ∧
      t1.sent_requests = x.new_client.sent_requests ++
        [⟨(open_internal ec bs x c url "" method headers body).2.header_block_, body, true⟩]) ∧
    (open_internal ec bs x c url "" method headers body).2.header_block_ =
      (set_first_range_header bs
        { c with header_block_ :=
            (add_caller_headers (set_pseudo_headers c.header_block_ method (x.gurl url))
              headers) }).2.header_block_ := by
  by_cases hb : c.block_size_ = 0 <;>
    rcases hn : x.new_client.new_stream_ids with _ | ⟨id, rest⟩ <;>
    by_cases hid : c.current_stream_id_ = 0 <;>
    simp [open_internal, set_first_range_header, SendRequest, on_stream_created,
      BeQuicSpdyClient.Initialize, BeQuicSpdyClient.Connect, BeQuicSpdyClient.ResetStream,
      BeQuicSpdyClient.OnStreamClosed, hres, hnew, hinit, hconn, hb, hn, hid]

/-- The header block with which `request_internal` sends its request on a
connected transport. -/
theorem request_internal_sends (ec : ErrorCodes) (bs : BlockSizes) (x : Externals)
    (c : BeQuicClient) (t : BeQuicSpdyClient) (url method : String)
    (headers : List InternalQuicHeader) (body : String)
    (ht : c.spdy_quic_client_ = some t) (hconn : t.connected = true) :
    (request_internal ec bs x c url method headers body).1 = ec.Success ∧
    (∃ t1, (request_internal ec bs x c url method headers body).2.spdy_quic_client_ = some t1 ∧
      t1.sent_requests = t.sent_requests ++
        [⟨(request_internal ec bs x c url method headers body).2.header_block_, "", true⟩]) ∧
    (request_internal ec bs x c url method headers body).2.header_block_ =
      header_set
        (set_first_range_header bs
          { c with header_block_ :=
              (add_caller_headers (set_pseudo_headers [] method (x.gurl url)) headers) }).2.header_block_
        "range" (range_value 0 (set_first_range_header bs c).1) := by
  obtain ⟨hs, hc⟩ : t.session_ = true ∧ t.connected_ = true := by
    simpa [BeQuicSpdyClient.connected] using hconn
  by_cases hb : c.block_size_ = 0 <;>
    rcases hn : t.new_stream_ids with _ | ⟨id, rest⟩ <;>
    by_cases hid : c.current_stream_id_ = 0 <;>
    simp [request_internal, request_range, close_current_stream, set_first_range_header,
      SendRequest, on_stream_created, BeQuicSpdyClient.connected,
      BeQuicSpdyClient.ResetStream, BeQuicSpdyClient.OnStreamClosed, ht, hs, hc, hb, hn, hid]

theorem range_value_zero (e : Int) (h : 0 < e) :
    range_value 0 e = "bytes=0-" ++ toString e := by
  have hlit : ∀ s : String, "bytes=" ++ toString (0 : Int) ++ "-" ++ s = "bytes=0-" ++ s :=
    fun s => rfl
  simp only [range_value, gt_iff_lt, h, if_true, hlit]

theorem range_value_open (start e : Int) (h : ¬ 0 < e) :
    range_value start e = "bytes=" ++ toString start ++ "-" := by
  simp only [range_value, gt_iff_lt, h, if_false]

/-- C13 (amended). `open_internal` runs on a client without transport whose
setup succeeds, `request_internal` on a client with a connected transport and
the same block size. Each sends exactly one request, which carries the header
block of the client. For a block size that is not zero and a first window that
ends after offset 0, both requests carry `range: bytes=0-<end>` with the same
`<end>`. For a block size of zero `open_internal` adds no `range` header to
the pseudo-headers and caller headers, and the request of `request_internal`
carries the open-ended `range: bytes=0-`. -/
theorem request_first_window (ec : ErrorCodes) (bs : BlockSizes) (x : Externals)
    (c d : BeQuicClient) (t : BeQuicSpdyClient) (url method : String)
    (headers : List InternalQuicHeader) (body : String)
    (hres : x.resolve (x.gurl url).host = true) (hnew : c.spdy_quic_client_ = none)
    (hinit : x.new_client.init_ok = true) (hup : x.new_client.connect_ok = true)
    (ht : d.spdy_quic_client_ = some t) (hconn : t.connected = true)
    (hsame : d.block_size_ = c.block_size_) :
    (∃ t1, (open_internal ec bs x c url "" method headers body).2.spdy_quic_client_ = some t1 ∧
      t1.sent_requests = x.new_client.sent_requests ++
        [⟨(open_internal ec bs x c url "" method headers body).2.header_block_, body, true⟩]) ∧
    (∃ t1, (request_internal ec bs x d url method headers body).2.spdy_quic_client_ = some t1 ∧
      t1.sent_requests = t.sent_requests ++
        [⟨(request_internal ec bs x d url method headers body).2.header_block_, "", true⟩]) ∧
    (c.block_size_ ≠ 0 → 0 < (set_first_range_header bs c).1 →
      header_find (open_internal ec bs x c url "" method headers body).2.header_block_ "range"
        = some ("bytes=0-" ++ toString (set_first_range_header bs c).1) ∧
      header_find (request_internal ec bs x d url method headers body).2.header_block_ "range"
        = some ("bytes=0-" ++ toString (set_first_range_header bs c).1)) ∧
    (c.block_size_ = 0 →
      (open_internal ec bs x c url "" method headers body).2.header_block_
        = add_caller_headers (set_pseudo_headers c.header_block_ method (x.gurl url)) headers ∧
      header_find (request_internal ec bs x d url method headers body).2.header_block_ "range"
        = some "bytes=0-") := by
  have ho := open_internal_sends ec bs x c url method headers body hres hnew hinit hup
  have hr := request_internal_sends ec bs x d t url method headers body ht hconn
  have hend : (set_first_range_header bs d).1 = (set_first_range_header bs c).1 := by
    unfold set_first_range_header
    rw [hsame]
    split <;> rfl
  refine ⟨ho.2.1, hr.2.1, fun hb he => ⟨?_, ?_⟩, fun hb => ⟨?_, ?_⟩⟩
  · rw [ho.2.2]
    simp only [set_first_range_header, if_neg hb]
    exact header_find_set _ _ _
  · rw [hr.2.2, hend, range_value_zero _ he]
    exact header_find_set _ _ _
  · rw [ho.2.2]
    simp [set_first_range_header, hb]
  · rw [hr.2.2, hend]
    have : (set_first_range_header bs c).1 = -1 := by simp [set_first_range_header, hb]
    rw [this, range_value_open 0 (-1) (by decide)]
    exact header_find_set _ _ _

/-! ### Resource switch -/

theorem TransportFrame.bytes {c d : BeQuicClient} (h : TransportFrame c d) :
    d.response_buff_ = c.response_buff_ ∧ d.read_offset_ = c.read_offset_ ∧
    d.file_size_ = c.file_size_ ∧ d.got_first_data_ = c.got_first_data_ ∧
    d.block_manager_ = c.block_manager_ := by
  unfold TransportFrame at h
  refine ⟨?_, ?_, ?_, ?_, ?_⟩ <;> (rw [h])

theorem TransportFrame.session {c d : BeQuicClient} (h : TransportFrame c d) :
    d.url_ = c.url_ ∧ d.method_ = c.method_ ∧ d.headers_ = c.headers_ ∧ d.body_ = c.body_ ∧
    d.busy_ = c.busy_ ∧ d.running_ = c.running_ ∧ d.task_runner_ = c.task_runner_ ∧
    d.block_size_ = c.block_size_ ∧ d.block_consume_ = c.block_consume_ := by
  unfold TransportFrame at h
  refine ⟨?_, ?_, ?_, ?_, ?_, ?_, ?_, ?_, ?_⟩ <;> (rw [h])

/-- C15 (the code at the failing input). A caller header whose key is one space
passes the test for an empty key, is stripped to the empty string and is
assigned: the block gets an entry with an empty key. A value that is one tab
gives an entry with an empty value. This holds for the loop itself and for the
header blocks built by `request_internal` and by `open_internal`. -/
theorem caller_header_blank_kept :
    add_caller_headers [] [⟨" ", "x"⟩, ⟨"accept", "\t"⟩] = [("", "x"), ("accept", "")] ∧
    header_find (request_internal exampleCodes exampleSizes exampleExternals
      (streamingClient 65536) "https://example.org/movie.mp4" "GET"
      [⟨" ", "x"⟩, ⟨"accept", "\t"⟩] "").2.header_block_ "" = some "x" ∧
    header_find (request_internal exampleCodes exampleSizes exampleExternals
      (streamingClient 65536) "https://example.org/movie.mp4" "GET"
      [⟨" ", "x"⟩, ⟨"accept", "\t"⟩] "").2.header_block_ "accept" = some "" ∧
    header_find (open_internal exampleCodes exampleSizes exampleExternals
      (unopenedClient 65536) "https://example.org/movie.mp4" "" "GET"
      [⟨" ", "x"⟩, ⟨"accept", "\t"⟩] "").2.header_block_ "" = some "x" := by
  decide

/-! ### Lifecycle -/

/-- C16. Let `r` be the result of `open`. With an empty url `r` is
`Invalid_Param`, with a non-empty url on a busy client it is `Invalid_State`;
in both cases the client is unchanged and no worker thread is started. An open
that passes both tests starts the worker and leaves `busy_` set whatever it
returns (0 without waiting, the value of the promise, or `Timeout`), and every
further open with a non-empty url on the resulting client returns
`Invalid_State` and changes nothing. -/
theorem open_validation (ec : ErrorCodes) (c : BeQuicClient) (url : String)
    (ip : Option String) (port : Nat) (method : String) (headers : List InternalQuicHeader)
    (body : String) (verify_certificate : Bool)
    (ietf_draft_version handshake_version transport_version : Int)
    (block_size block_consume timeout promised : Int) (in_time : Bool) (r : OpenCall)
    (hr : r = open_ ec c url ip port method headers body verify_certificate ietf_draft_version
      handshake_version transport_version block_size block_consume timeout promised in_time) :
    (url = "" → r = ⟨ec.Invalid_Param, c, false⟩) ∧
    (url ≠ "" → c.busy_ = true → r = ⟨ec.Invalid_State, c, false⟩) ∧
    (url ≠ "" → c.busy_ = false →
      r.started = true ∧ r.client.busy_ = true ∧
      (r.ret = 0 ∨ r.ret = promised ∨ r.ret = ec.Timeout) ∧
      ∀ (url2 : String) (ip2 : Option String) (port2 : Nat) (method2 : String)
        (headers2 : List InternalQuicHeader) (body2 : String) (verify2 : Bool)
        (ietf2 handshake2 transport2 block_size2 block_consume2 timeout2 promised2 : Int)
        (in_time2 : Bool), url2 ≠ "" →
        open_ ec r.client url2 ip2 port2 method2 headers2 body2 verify2 ietf2 handshake2
          transport2 block_size2 block_consume2 timeout2 promised2 in_time2
          = ⟨ec.Invalid_State, r.client, false⟩) := by
  subst hr
  refine ⟨fun h => by simp [open_, h], fun h hb => by simp [open_, h, hb], fun h hb => ?_⟩
  have hbusy : (open_ ec c url ip port method headers body verify_certificate
      ietf_draft_version handshake_version transport_version block_size block_consume timeout
      promised in_time).client.busy_ = true := by
    simp only [open_, if_neg h, hb, Bool.false_eq_true, if_false]
    repeat' (first | split | dsimp only)
  refine ⟨?_, hbusy, ?_, ?_⟩
  · simp only [open_, if_neg h, hb, Bool.false_eq_true, if_false]
    repeat' (first | split | dsimp only)
  · simp only [open_, if_neg h, hb, Bool.false_eq_true, if_false]
    repeat' (first | split | dsimp only)
    all_goals simp
  · intro url2 ip2 port2 method2 headers2 body2 verify2 ietf2 handshake2 transport2
      block_size2 block_consume2 timeout2 promised2 in_time2 h2
    generalize (open_ ec c url ip port method headers body verify_certificate
      ietf_draft_version handshake_version transport_version block_size block_consume timeout
      promised in_time).client = d at hbusy
    simp [open_, h2, hbusy]

theorem TransportFrame.overrides {c d : BeQuicClient} (h : TransportFrame c d) :
    d.mapped_ip_ = c.mapped_ip_ ∧ d.mapped_port_ = c.mapped_port_ := by
  unfold TransportFrame at h
  refine ⟨?_, ?_⟩ <;> (rw [h])

/-- The streams closed at disconnect change only the active stream id. -/
theorem closing_frame (closing : List Nat) :
    ∀ c : BeQuicClient,
      TransportFrame c (closing.foldl (fun d id => on_stream_closed d (some id)) c) := by
  induction closing with
  | nil => intro c; exact TransportFrame.refl c
  | cons id rest ih =>
    intro c
    exact TransportFrame.trans (on_stream_closed_frame c (some id)) (ih _)

/-- What `close` leaves as it was: the overrides, the block hints, the header
block and the byte-level state. -/
theorem close_keeps (c : BeQuicClient) (closing : List Nat) :
    (close c closing).mapped_ip_ = c.mapped_ip_ ∧
    (close c closing).mapped_port_ = c.mapped_port_ ∧
    (close c closing).block_size_ = c.block_size_ ∧
    (close c closing).block_consume_ = c.block_consume_ ∧
    (close c closing).response_buff_ = c.response_buff_ ∧
    (close c closing).read_offset_ = c.read_offset_ ∧
    (close c closing).file_size_ = c.file_size_ ∧
    (close c closing).got_first_data_ = c.got_first_data_ ∧
    (close c closing).block_manager_ = c.block_manager_ := by
  have hf := closing_frame closing { c with running_ := false }
  have key : ∀ d, d = close c closing →
      d.mapped_ip_ = c.mapped_ip_ ∧ d.mapped_port_ = c.mapped_port_ ∧
      d.block_size_ = c.block_size_ ∧ d.block_consume_ = c.block_consume_ ∧
      d.response_buff_ = c.response_buff_ ∧ d.read_offset_ = c.read_offset_ ∧
      d.file_size_ = c.file_size_ ∧ d.got_first_data_ = c.got_first_data_ ∧
      d.block_manager_ = c.block_manager_ := by
    intro d hd
    unfold close Run_exit at hd
    repeat' (first | split at hd | dsimp only at hd)
    · subst hd; exact ⟨rfl, rfl, rfl, rfl, rfl, rfl, rfl, rfl, rfl⟩
    · subst hd; exact ⟨rfl, rfl, rfl, rfl, rfl, rfl, rfl, rfl, rfl⟩
    · subst hd
      exact ⟨hf.overrides.1, hf.overrides.2, hf.session.2.2.2.2.2.2.2.1,
        hf.session.2.2.2.2.2.2.2.2, hf.bytes.1, hf.bytes.2.1, hf.bytes.2.2.1,
        hf.bytes.2.2.2.1, hf.bytes.2.2.2.2⟩
  exact key _ rfl

/-- C18 (the code at the failing input). The client `overriddenClient` is in the
middle of a session opened with an ip override, a port override and block
hints; stream 4 is closed at disconnect. After `close` the flags `busy_` and
`running_` are cleared and the url is empty, and the ip override, the port
override, the block hints, the header block, the buffered bytes,
`read_offset_`, `file_size_` and the first-data flag are what they were: the
client is not in the state of a constructed one. -/
theorem close_leaves_session_state :
    (close overriddenClient [4]).busy_ = false ∧
    (close overriddenClient [4]).running_ = false ∧
    (close overriddenClient [4]).url_ = "" ∧
    (close overriddenClient [4]).mapped_ip_ = "10.0.0.1" ∧
    (close overriddenClient [4]).mapped_port_ = 4433 ∧
    (close overriddenClient [4]).block_size_ = 65536 ∧
    (close overriddenClient [4]).block_consume_ = 4 ∧
    (close overriddenClient [4]).header_block_ = overriddenClient.header_block_ ∧
    (close overriddenClient [4]).response_buff_ = [1, 2, 3] ∧
    (close overriddenClient [4]).read_offset_ = 100 ∧
    (close overriddenClient [4]).file_size_ = 1000 ∧
    (close overriddenClient [4]).got_first_data_ = true ∧
    close overriddenClient [4] ≠ BeQuicClient.create := by
  decide

/-! ### State and parameter gates -/

/-- C19. For every client: when `running_` is false, `request`, `seek`,
`get_stats` and `read_buffer` return `Invalid_State`; when `running_` is true
and the executor is absent, `request`, `seek` and `get_stats` (with an output)
return `Null_Pointer`; when `running_` is true, `read_buffer` with a null
destination or with size 0 and `get_stats` with a null output return
`Invalid_Param`. In each of these cases the client is unchanged, the output of
`get_stats` is unchanged and no task is posted. -/
theorem gates_synchronous (ec : ErrorCodes) (bs : BlockSizes) (x : Externals)
    (c : BeQuicClient) :
    (c.running_ = false →
      (∀ url method headers body timeout in_time,
        request ec bs x c url method headers body timeout in_time
          = ⟨ec.Invalid_State, c, []⟩) ∧
      (∀ off whence,
        seek ec c off whence = (ec.Invalid_State, c) ∧ seek_posted c off whence = []) ∧
      (∀ stats connection tm,
        get_stats ec c stats connection tm = ⟨ec.Invalid_State, stats, []⟩) ∧
      (∀ buf_null size timeout wait,
        read_buffer ec c buf_null size timeout wait = ⟨ec.Invalid_State, [], c⟩)) ∧
    (c.running_ = true → c.task_runner_ = false →
      (∀ url method headers body timeout in_time,
        request ec bs x c url method headers body timeout in_time
          = ⟨ec.Null_Pointer, c, []⟩) ∧
      (∀ off whence,
        seek ec c off whence = (ec.Null_Pointer, c) ∧ seek_posted c off whence = []) ∧
      (∀ out connection tm,
        get_stats ec c (some out) connection tm = ⟨ec.Null_Pointer, some out, []⟩)) ∧
    (c.running_ = true →
      (∀ size timeout wait,
        read_buffer ec c true size timeout wait = ⟨ec.Invalid_Param, [], c⟩) ∧
      (∀ buf_null timeout wait,
        read_buffer ec c buf_null 0 timeout wait = ⟨ec.Invalid_Param, [], c⟩) ∧
      (∀ connection tm,
        get_stats ec c none connection tm = ⟨ec.Invalid_Param, none, []⟩)) := by
  refine ⟨fun hrun => ⟨?_, ?_, ?_, ?_⟩, fun hrun htr => ⟨?_, ?_, ?_⟩, fun hrun => ⟨?_, ?_, ?_⟩⟩
  · intros; simp [request, hrun]
  · intros; simp [seek, seek_posted, hrun]
  · intros; simp [get_stats, hrun]
  · intros; simp [read_buffer, hrun]
  · intros; simp [request, hrun, htr]
  · intros; simp [seek, seek_posted, hrun, htr]
  · intros; simp [get_stats, hrun, htr]
  · intros; simp [read_buffer, hrun]
  · intros; simp [read_buffer, hrun]
  · intros; simp [get_stats, hrun]

/-! ### Stream replacement -/

/-- A stream created while the stream `c.current_stream_id_` is active, on a
transport with a session. -/
theorem on_stream_created_replaces (c : BeQuicClient) (t : BeQuicSpdyClient) (id : Nat)
    (ht : c.spdy_quic_client_ = some t) (hs : t.session_ = true)
    (hid : c.current_stream_id_ ≠ 0) :
    on_stream_created c (some id) =
      { c with
        spdy_quic_client_ := some
          ((t.ResetStream c.current_stream_id_
            QuicRstStreamErrorCode.QUIC_REFUSED_STREAM).OnStreamClosed c.current_stream_id_),
        current_stream_id_ := id } := by
  simp [on_stream_created, ht, hs, hid]

/-- A stream created while no stream is active. -/
theorem on_stream_created_first (c : BeQuicClient) (id : Nat)
    (hid : c.current_stream_id_ = 0) :
    on_stream_created c (some id) = { c with current_stream_id_ := id } := by
  simp [on_stream_created, hid]

/-- One stream notification keeps the transport and its session, and keeps
every entry of the reset log. -/
theorem stream_step_transport (c : BeQuicClient) (t : BeQuicSpdyClient) (ev : StreamEvent)
    (ht : c.spdy_quic_client_ = some t) (hs : t.session_ = true) :
    ∃ t1, (stream_step c ev).spdy_quic_client_ = some t1 ∧ t1.session_ = true ∧
      ∀ entry ∈ t.reset_streams, entry ∈ t1.reset_streams := by
  rcases ev with (_ | id) | (_ | id)
  · exact ⟨t, ht, hs, fun _ h => h⟩
  · by_cases hid : c.current_stream_id_ = 0
    · rw [stream_step, on_stream_created_first c id hid]
      exact ⟨t, ht, hs, fun _ h => h⟩
    · rw [stream_step, on_stream_created_replaces c t id ht hs hid]
      refine ⟨_, rfl, hs, fun entry h => ?_⟩
      simp [BeQuicSpdyClient.ResetStream, BeQuicSpdyClient.OnStreamClosed, h]
  · exact ⟨t, ht, hs, fun _ h => h⟩
  · refine ⟨t, ?_, hs, fun _ h => h⟩
    simp only [stream_step, on_stream_closed]
    split <;> exact ht

/-- The invariant behind stream replacement, for every sequence of stream
notifications: a stream that was active, was created, or has been reset is at
the end the active one, or was closed, or has been reset. -/
theorem run_stream_events_invariant (events : List StreamEvent) :
    ∀ (c : BeQuicClient) (t : BeQuicSpdyClient) (i : Nat),
      c.spdy_quic_client_ = some t → t.session_ = true → i ≠ 0 →
      (i = c.current_stream_id_ ∨ StreamEvent.created (some i) ∈ events ∨
        (i, QuicRstStreamErrorCode.QUIC_REFUSED_STREAM) ∈ t.reset_streams) →
      (run_stream_events c events).current_stream_id_ = i ∨
      StreamEvent.closed (some i) ∈ events ∨
      ∃ t1, (run_stream_events c events).spdy_quic_client_ = some t1 ∧
        (i, QuicRstStreamErrorCode.QUIC_REFUSED_STREAM) ∈ t1.reset_streams := by
  induction events with
  | nil =>
    intro c t i ht _ _ h
    rcases h with h | h | h
    · exact Or.inl h.symm
    · simp at h
    · exact Or.inr (Or.inr ⟨t, ht, h⟩)
  | cons ev rest ih =>
    intro c t i ht hs hi h
    obtain ⟨t1, ht1, hs1, hmono⟩ := stream_step_transport c t ev ht hs
    have hrun : run_stream_events c (ev :: rest) = run_stream_events (stream_step c ev) rest :=
      rfl
    rw [hrun]
    -- the alternative that holds after the first notification
    have hnext : i = (stream_step c ev).current_stream_id_ ∨
        StreamEvent.closed (some i) = ev ∨
        StreamEvent.created (some i) ∈ rest ∨
        (i, QuicRstStreamErrorCode.QUIC_REFUSED_STREAM) ∈ t1.reset_streams := by
      rcases h with h | h | h
      · -- the stream was the active one
        rcases ev with (_ | id) | (_ | id)
        · exact Or.inl h
        · right; right; right
          have hid : c.current_stream_id_ ≠ 0 := by rw [← h]; exact hi
          have := on_stream_created_replaces c t id ht hs hid
          rw [stream_step, this] at ht1
          simp only [Option.some.injEq] at ht1
          rw [← ht1, ← h]
          simp [BeQuicSpdyClient.ResetStream, BeQuicSpdyClient.OnStreamClosed]
        · exact Or.inl h
        · by_cases hj : id = c.current_stream_id_
          · right; left; rw [h, hj]
          · left; simp [stream_step, on_stream_closed, hj, h]
      · -- the stream is created by the sequence
        rcases List.mem_cons.mp h with h | h
        · left
          rw [← h]
          by_cases hid : c.current_stream_id_ = 0
          · rw [stream_step, on_stream_created_first c i hid]
          · rw [stream_step, on_stream_created_replaces c t i ht hs hid]
        · exact Or.inr (Or.inr (Or.inl h))
      · exact Or.inr (Or.inr (Or.inr (hmono _ h)))
    rcases hnext with h | h | h | h
    · rcases ih (stream_step c ev) t1 i ht1 hs1 hi (Or.inl h) with r | r | r
      · exact Or.inl r
      · exact Or.inr (Or.inl (List.mem_cons_of_mem _ r))
      · exact Or.inr (Or.inr r)
    · exact Or.inr (Or.inl (by rw [h]; exact List.mem_cons_self _ _))
    · rcases ih (stream_step c ev) t1 i ht1 hs1 hi (Or.inr (Or.inl h)) with r | r | r
      · exact Or.inl r
      · exact Or.inr (Or.inl (List.mem_cons_of_mem _ r))
      · exact Or.inr (Or.inr r)
    · rcases ih (stream_step c ev) t1 i ht1 hs1 hi (Or.inr (Or.inr h)) with r | r | r
      · exact Or.inl r
      · exact Or.inr (Or.inl (List.mem_cons_of_mem _ r))
      · exact Or.inr (Or.inr r)

/-- Stream replacement for non-zero ids. On a client whose transport has a
session: a stream created while a stream with a non-zero id is active makes
the session reset the active one with `QUIC_REFUSED_STREAM` and close it, and
becomes the active stream; a stream created while the active id is zero just becomes the active
stream; a stream-closed notification clears the active id exactly when it is
for the active stream. For every sequence of notifications, every stream with
a non-zero id that was active at the start or is created by the sequence is at
the end the active stream, or was closed by the sequence, or has been reset on
the transport. -/
theorem stream_replacement (c : BeQuicClient) (t : BeQuicSpdyClient)
    (ht : c.spdy_quic_client_ = some t) (hs : t.session_ = true) :
    (∀ id, c.current_stream_id_ ≠ 0 →
      on_stream_created c (some id) =
        { c with
          spdy_quic_client_ := some
            ((t.ResetStream c.current_stream_id_
              QuicRstStreamErrorCode.QUIC_REFUSED_STREAM).OnStreamClosed c.current_stream_id_),
          current_stream_id_ := id }) ∧
    (∀ id, c.current_stream_id_ = 0 →
      on_stream_created c (some id) = { c with current_stream_id_ := id }) ∧
    (∀ id, on_stream_closed c (some id) =
      if id = c.current_stream_id_ then { c with current_stream_id_ := 0 } else c) ∧
    (∀ (events : List StreamEvent) (i : Nat), i ≠ 0 →
      (i = c.current_stream_id_ ∨ StreamEvent.created (some i) ∈ events) →
      (run_stream_events c events).current_stream_id_ = i ∨
      StreamEvent.closed (some i) ∈ events ∨
      ∃ t1, (run_stream_events c events).spdy_quic_client_ = some t1 ∧
        (i, QuicRstStreamErrorCode.QUIC_REFUSED_STREAM) ∈ t1.reset_streams) := by
  refine ⟨fun id hid => on_stream_created_replaces c t id ht hs hid,
    fun id hid => on_stream_created_first c id hid, fun id => rfl, fun events i hi h => ?_⟩
  apply run_stream_events_invariant events c t i ht hs hi
  rcases h with h | h
  · exact Or.inl h
  · exact Or.inr (Or.inl h)

/-! ### The resource size between two requests -/

/-- `seek_in_buffer` leaves the resource size and the first-data flag alone. -/
theorem seek_in_buffer_size (ec : ErrorCodes) (c : BeQuicClient) (off whence tgt : Int) :
    (seek_in_buffer ec c off whence tgt).client.file_size_ = c.file_size_ ∧
    (seek_in_buffer ec c off whence tgt).client.got_first_data_ = c.got_first_data_ := by
  have key : ∀ r, r = seek_in_buffer ec c off whence tgt →
      r.client.file_size_ = c.file_size_ ∧ r.client.got_first_data_ = c.got_first_data_ := by
    intro r hr
    unfold seek_in_buffer at hr
    repeat' (first | split at hr | dsimp only at hr)
    all_goals (subst hr; exact ⟨rfl, rfl⟩)
  exact key _ rfl

/-- `seek_from_net` leaves the resource size and the first-data flag alone. -/
theorem seek_from_net_size (ec : ErrorCodes) (c : BeQuicClient) (off : Int) :
    (seek_from_net ec c off).2.file_size_ = c.file_size_ ∧
    (seek_from_net ec c off).2.got_first_data_ = c.got_first_data_ := by
  have hclose := (close_current_stream_frame c).bytes
  have key : ∀ r, r = seek_from_net ec c off →
      r.2.file_size_ = c.file_size_ ∧ r.2.got_first_data_ = c.got_first_data_ := by
    intro r hr
    unfold seek_from_net at hr
    repeat' (first | split at hr | dsimp only at hr)
    · subst hr; exact ⟨rfl, rfl⟩
    · subst hr; exact ⟨hclose.2.2.1, hclose.2.2.2.1⟩
    all_goals
      (subst hr
       have hreq := (request_range_frame ec
         { (close_current_stream c).2 with read_offset_ := off, response_buff_ := [] } off
         (-1)).bytes
       exact ⟨hreq.2.2.1.trans hclose.2.2.1, hreq.2.2.2.1.trans hclose.2.2.2.1⟩)
  exact key _ rfl

/-- `seek` leaves the resource size and the first-data flag alone. -/
theorem seek_size (ec : ErrorCodes) (c : BeQuicClient) (off whence : Int) :
    (seek ec c off whence).2.file_size_ = c.file_size_ ∧
    (seek ec c off whence).2.got_first_data_ = c.got_first_data_ := by
  have h1 := seek_in_buffer_size ec c off whence (-1)
  have h2 := seek_from_net_size ec (seek_in_buffer ec c off whence (-1)).client
    (seek_in_buffer ec c off whence (-1)).target_off
  have key : ∀ r, r = seek ec c off whence →
      r.2.file_size_ = c.file_size_ ∧ r.2.got_first_data_ = c.got_first_data_ := by
    intro r hr
    unfold seek seek_internal at hr
    repeat' (first | split at hr | dsimp only at hr)
    · subst hr; exact ⟨rfl, rfl⟩
    · subst hr; exact ⟨rfl, rfl⟩
    · subst hr; exact ⟨rfl, rfl⟩
    · subst hr; exact ⟨h2.1.trans h1.1, h2.2.trans h1.2⟩
    · subst hr; exact h1
  exact key _ rfl

/-- After the first data of a request `on_data` leaves the resource size
alone. -/
theorem on_data_size (x : Externals) (c : BeQuicClient)
    (stream : Option BeQuicSpdyClientStream) (buf : Option (List UInt8)) (size : Int)
    (h : c.got_first_data_ = true) :
    (on_data x c stream buf size).client.file_size_ = c.file_size_ ∧
    (on_data x c stream buf size).client.got_first_data_ = true := by
  have key : ∀ r, r = on_data x c stream buf size →
      r.client.file_size_ = c.file_size_ ∧ r.client.got_first_data_ = true := by
    intro r hr
    unfold on_data at hr
    simp only [h, Bool.true_eq_false, if_false] at hr
    repeat' (first | split at hr | dsimp only at hr)
    all_goals (subst hr; first | exact ⟨rfl, h⟩ | exact ⟨rfl, rfl⟩)
  exact key _ rfl

/-- After the first data of a request a worker event leaves the resource size
alone. -/
theorem worker_step_size (ec : ErrorCodes) (x : Externals) (c : BeQuicClient)
    (e : WorkerEvent) (h : c.got_first_data_ = true) :
    (worker_step ec x c e).file_size_ = c.file_size_ ∧
    (worker_step ec x c e).got_first_data_ = true := by
  cases e with
  | seek off whence =>
    have hs := seek_size ec c off whence
    exact ⟨hs.1, hs.2.trans h⟩
  | stream_created stream =>
    have hf := (on_stream_created_frame c stream).bytes
    exact ⟨hf.2.2.1, hf.2.2.2.1.trans h⟩
  | stream_closed stream =>
    have hf := (on_stream_closed_frame c stream).bytes
    exact ⟨hf.2.2.1, hf.2.2.2.1.trans h⟩
  | data stream buf size => exact on_data_size x c stream buf size h

/-- After the first data of a request a sequence of worker events leaves the
resource size alone. -/
theorem worker_steps_size (ec : ErrorCodes) (x : Externals) (events : List WorkerEvent) :
    ∀ c : BeQuicClient, c.got_first_data_ = true →
      (events.foldl (worker_step ec x) c).file_size_ = c.file_size_ ∧
      (events.foldl (worker_step ec x) c).got_first_data_ = true := by
  induction events with
  | nil => intro c h; exact ⟨rfl, h⟩
  | cons e rest ih =>
    intro c h
    have h1 := worker_step_size ec x c e h
    have h2 := ih (worker_step ec x c e) h1.2
    exact ⟨h2.1.trans h1.1, h2.2⟩

/-- `read_buffer` leaves the resource size alone when what happens during its
wait does. -/
theorem read_buffer_size (ec : ErrorCodes) (c : BeQuicClient) (buf_null : Bool)
    (size timeout : Int) (wait : BeQuicClient → BeQuicClient)
    (hw : (wait c).file_size_ = c.file_size_ ∧ (wait c).got_first_data_ = c.got_first_data_) :
    (read_buffer ec c buf_null size timeout wait).client.file_size_ = c.file_size_ ∧
    (read_buffer ec c buf_null size timeout wait).client.got_first_data_
      = c.got_first_data_ := by
  have key : ∀ r, r = read_buffer ec c buf_null size timeout wait →
      r.client.file_size_ = c.file_size_ ∧ r.client.got_first_data_ = c.got_first_data_ := by
    intro r hr
    unfold read_buffer at hr
    repeat' (first | split at hr | dsimp only at hr)
    all_goals (subst hr; first | exact ⟨rfl, rfl⟩ | exact hw)
  exact key _ rfl

/-- C20. From a client that has had the first data of its request, every
sequence of `read_buffer` calls (with the worker events that happen during
their waits), seeks, stream-created and stream-closed notifications and data
arrivals, on any stream, leaves `file_size_` unchanged and the first-data
flag set. -/
theorem resource_size_fixed (ec : ErrorCodes) (x : Externals) (events : List ClientEvent)
    (c : BeQuicClient) (h : c.got_first_data_ = true) :
    (run_events ec x c events).file_size_ = c.file_size_ ∧
    (run_events ec x c events).got_first_data_ = true := by
  induction events generalizing c with
  | nil => exact ⟨rfl, h⟩
  | cons e rest ih =>
    have hstep : (client_step ec x c e).file_size_ = c.file_size_ ∧
        (client_step ec x c e).got_first_data_ = true := by
      cases e with
      | worker w => exact worker_step_size ec x c w h
      | read_buffer buf_null size timeout during =>
        have hw := worker_steps_size ec x during c h
        have hr := read_buffer_size ec c buf_null size timeout
          (fun d => during.foldl (worker_step ec x) d) ⟨hw.1, hw.2.trans h.symm⟩
        exact ⟨hr.1, hr.2.trans h⟩
    have h2 := ih (client_step ec x c e) hstep.2
    exact ⟨h2.1.trans hstep.1, h2.2⟩

/-! ### Instances at concrete inputs -/

/-- Witness of C13 (amended): with a block size of 65536 the request of `open`
and the request of `request` both carry `range: bytes=0-65535`. -/
theorem request_first_window_witness :
    header_find (open_internal exampleCodes exampleSizes exampleExternals
      (unopenedClient 65536) "https://example.org/movie.mp4" "" "GET" [] "").2.header_block_
      "range" = some "bytes=0-65535" ∧
    header_find (request_internal exampleCodes exampleSizes exampleExternals
      (streamingClient 65536) "https://example.org/movie.mp4" "GET" [] "").2.header_block_
      "range" = some "bytes=0-65535" :=
  (request_first_window exampleCodes exampleSizes exampleExternals (unopenedClient 65536)
    (streamingClient 65536) exampleTransport "https://example.org/movie.mp4" "GET" [] ""
    rfl rfl rfl rfl rfl rfl rfl).2.2.1 (by decide) (by decide)

/-- Counterexample to C13 as stated: with a block size of zero the request sent
by `open_internal` carries no `range` header, and the request sent by
`request_internal` carries `range: bytes=0-`. -/
theorem request_first_window_counterexample :
    (open_internal exampleCodes exampleSizes exampleExternals (unopenedClient 0)
      "https://example.org/movie.mp4" "" "GET" [] "").2.spdy_quic_client_.map
      (fun t => t.sent_requests.map (fun q => header_find q.headers "range")) = some [none] ∧
    (request_internal exampleCodes exampleSizes exampleExternals (streamingClient 0)
      "https://example.org/movie.mp4" "GET" [] "").2.spdy_quic_client_.map
      (fun t => t.sent_requests.map (fun q => header_find q.headers "range"))
      = some [some "bytes=0-"] := by
  decide

/-- Witness of C16: an empty url, a busy client, and an open that times out. -/
theorem open_validation_witness :
    open_ exampleCodes BeQuicClient.create "" none 0 "GET" [] "" true (-1) (-1) (-1) 65536 0
        5000 0 true
      = ⟨exampleCodes.Invalid_Param, BeQuicClient.create, false⟩ ∧
    open_ exampleCodes smallClient "https://example.org/movie.mp4" none 0 "GET" [] "" true
        (-1) (-1) (-1) 65536 0 5000 0 true
      = ⟨exampleCodes.Invalid_State, smallClient, false⟩ ∧
    (open_ exampleCodes BeQuicClient.create "https://example.org/movie.mp4" none 0 "GET" []
        "" true (-1) (-1) (-1) 65536 0 5000 0 false).client.busy_ = true :=
  ⟨(open_validation exampleCodes BeQuicClient.create "" none 0 "GET" [] "" true (-1) (-1)
      (-1) 65536 0 5000 0 true _ rfl).1 rfl,
    (open_validation exampleCodes smallClient "https://example.org/movie.mp4" none 0 "GET" []
      "" true (-1) (-1) (-1) 65536 0 5000 0 true _ rfl).2.1 (by decide) rfl,
    ((open_validation exampleCodes BeQuicClient.create "https://example.org/movie.mp4" none 0
      "GET" [] "" true (-1) (-1) (-1) 65536 0 5000 0 false _ rfl).2.2 (by decide) rfl).2.1⟩

/-- An instance of `stream_replacement`: stream 8 is created while stream 4 is
active. -/
theorem stream_replacement_witness :
    on_stream_created smallClient (some 8) =
      { smallClient with
        spdy_quic_client_ := some
          { exampleTransport with
            reset_streams := [(4, QuicRstStreamErrorCode.QUIC_REFUSED_STREAM)],
            closed_streams := [4] },
        current_stream_id_ := 8 } :=
  (stream_replacement smallClient exampleTransport rfl rfl).1 8 (by decide)

/-- C17: a stream whose id is 0 is not reset when the next stream is created.
`on_stream_created` skips the reset when the recorded id is 0, the value that
stands for "no active stream". On a client with a session and no stream
recorded, the streams 0 and 4 are created one after the other and none is
closed: at the end stream 4 is the active one and the session was asked to
reset and to close nothing, while data of stream 0 was accepted as data of the
active stream in between. With the ids 4 and 8 in place of 0 and 4 the session
resets stream 4 with `QUIC_REFUSED_STREAM`. -/
theorem stream_zero_not_reset :
    (run_stream_events idleStreamClient
      [StreamEvent.created (some 0), StreamEvent.created (some 4)]).current_stream_id_ = 4 ∧
    (run_stream_events idleStreamClient
      [StreamEvent.created (some 0), StreamEvent.created (some 4)]).spdy_quic_client_.map
      (fun t => (t.reset_streams, t.closed_streams)) = some ([], []) ∧
    (on_data exampleExternals
      (run_stream_events idleStreamClient [StreamEvent.created (some 0)])
      (some (BeQuicSpdyClientStream.create 0 [])) (some [7]) 1).client.response_buff_ = [7] ∧
    (run_stream_events idleStreamClient
      [StreamEvent.created (some 4), StreamEvent.created (some 8)]).spdy_quic_client_.map
      (fun t => (t.reset_streams, t.closed_streams))
      = some ([(4, QuicRstStreamErrorCode.QUIC_REFUSED_STREAM)], [4]) := by
  decide

/-- Witness of C20: after a seek miss, the first data of the replacement stream
and a read, the resource size is still 1000. -/
theorem resource_size_fixed_witness :
    (run_events exampleCodes exampleExternals exampleClient exampleEvents).file_size_ = 1000 ∧
    (run_events exampleCodes exampleExternals exampleClient exampleEvents).got_first_data_
      = true :=
  resource_size_fixed exampleCodes exampleExternals exampleEvents exampleClient rfl

/-- Witness of C19: on a constructed client, which is not running, a seek
returns `Invalid_State`, changes nothing and posts nothing; on a running client
a read into a null destination returns `Invalid_Param` and changes nothing. -/
theorem gates_synchronous_witness :
    (seek exampleCodes BeQuicClient.create 300 SEEK_SET
        = (exampleCodes.Invalid_State, BeQuicClient.create) ∧
      seek_posted BeQuicClient.create 300 SEEK_SET = []) ∧
    read_buffer exampleCodes smallClient true 16 0 id
      = ⟨exampleCodes.Invalid_Param, [], smallClient⟩ :=
  ⟨((gates_synchronous exampleCodes exampleSizes exampleExternals BeQuicClient.create).1
      rfl).2.1 300 SEEK_SET,
    ((gates_synchronous exampleCodes exampleSizes exampleExternals smallClient).2.2 rfl).1 16 0
      id⟩

/-! ### The value a seek returns and the count a read copies -/

/-- A value narrowed to `int` lies in the range of `int`. -/
theorem toInt32_range (x : Int) : -2147483648 ≤ toInt32 x ∧ toInt32 x < 2147483648 := by
  unfold toInt32; omega

/-- What `seek` hands to its caller has passed through an `int`: it is an error
constant or a narrowed value, so it is never 2^31 or more. -/
theorem seek_ret_int32 (ec : ErrorCodes) (hec : ec.Valid) (c : BeQuicClient)
    (off whence : Int) :
    -2147483648 ≤ (seek ec c off whence).1 ∧ (seek ec c off whence).1 < 2147483648 := by
  have hstate := hec.bound (e := ec.Invalid_State) (by simp [ErrorCodes.errors])
  have hnull := hec.bound (e := ec.Null_Pointer) (by simp [ErrorCodes.errors])
  unfold seek
  split
  · constructor <;> dsimp only <;> omega
  · split
    · constructor <;> dsimp only <;> omega
    · unfold seek_internal
      split
      · constructor <;> dsimp only <;> omega
      · dsimp only
        split
        · exact toInt32_range _
        · exact toInt32_range _

/-- Below 2^31 a seek that misses the buffer and gets its request out returns
the target. -/
theorem seek_miss_small_target (ec : ErrorCodes) (c : BeQuicClient) (T : Int)
    (hec : ec.Valid) (hrun : c.running_ = true) (htr : c.task_runner_ = true)
    (ht : c.spdy_quic_client_ ≠ none) (hfs : c.file_size_ ≠ -1)
    (hT0 : 0 ≤ T) (hT1 : T < 2147483648) (hne : T ≠ c.read_offset_)
    (hmiss : ¬ (T - c.read_offset_ > 0 ∧ (c.response_buff_.length : Int) > T - c.read_offset_))
    (hnet : (seek_from_net ec c T).1 = T) :
    (seek ec c T SEEK_SET).1 = T := by
  rw [seek_running ec c T SEEK_SET hrun htr]
  have hb := seek_in_buffer_set ec c T (-1) hfs hne
  rw [if_neg (not_lt.mpr hT0), if_neg hmiss] at hb
  have hcode := hec.toInt32_eq (e := ec.Buffer_Not_Hit) (by simp [ErrorCodes.errors])
  simp only [seek_internal, ht, if_false, hb, hcode, if_true, hnet]
  exact toInt32_of_range (by omega) hT1

/-- C21: the value of a successful seek is the target only below 2^31.
`seek_internal` keeps the `int64_t` results of `seek_in_buffer` and
`seek_from_net` in an `int` and gives them to a promise of `int`. On a client
at offset 100 of a resource of 5000000000 bytes with an empty buffer, the seek
to 2147483648 misses the buffer, cancels stream 4, sends the range request,
moves `read_offset_` to 2147483648, and returns -2147483648; the seek to
4294967296 returns 0, and the seek to 4294967289 returns -7, the value of
`Buffer_Not_Hit` in `exampleCodes`. Apart from the narrowing, the fast path
returns the argument `off`: `seek(0, SEEK_CUR)` at offset 100 returns 0. -/
theorem seek_result_narrowed_to_int :
    (seek exampleCodes largeClient 2147483648 SEEK_SET).1 = -2147483648 ∧
    (seek exampleCodes largeClient 2147483648 SEEK_SET).2.read_offset_ = 2147483648 ∧
    (seek exampleCodes largeClient 2147483648 SEEK_SET).2.current_stream_id_ = 8 ∧
    (seek exampleCodes largeClient 4294967296 SEEK_SET).1 = 0 ∧
    (seek exampleCodes largeClient 4294967296 SEEK_SET).2.read_offset_ = 4294967296 ∧
    (seek exampleCodes largeClient 4294967289 SEEK_SET).1 = exampleCodes.Buffer_Not_Hit ∧
    largeClient.read_offset_ = 100 ∧
    (seek exampleCodes largeClient 0 SEEK_CUR).1 = 0 := by
  decide

/-- A positive size bounds the copy: with `0 < size < 2^31` the bytes copied and
the returned count are at most `size`. -/
theorem read_buffer_bounded (ec : ErrorCodes) (hec : ec.Valid) (c : BeQuicClient)
    (buf_null : Bool) (size timeout : Int) (wait : BeQuicClient → BeQuicClient)
    (h0 : 0 < size) (h1 : size < 2147483648) :
    ((read_buffer ec c buf_null size timeout wait).dst.length : Int) ≤ size ∧
    (read_buffer ec c buf_null size timeout wait).ret ≤ size := by
  have hstate := hec.bound (e := ec.Invalid_State) (by simp [ErrorCodes.errors])
  have hparam := hec.bound (e := ec.Invalid_Param) (by simp [ErrorCodes.errors])
  have heof := hec.bound (e := ec.Eof) (by simp [ErrorCodes.errors])
  have hsz : toSizeT size = size.toNat := by
    unfold toSizeT
    rw [Int.emod_eq_of_lt (le_of_lt h0) (by omega)]
  have key : ∀ r, r = read_buffer ec c buf_null size timeout wait →
      (r.dst.length : Int) ≤ size ∧ r.ret ≤ size := by
    intro r hr
    unfold read_buffer at hr
    repeat' (first | split at hr | dsimp only at hr)
    all_goals subst hr
    all_goals dsimp only
    all_goals first
      | exact ⟨by simp only [List.length_nil, Nat.cast_zero]; omega, by omega⟩
      | (rw [hsz]
         constructor
         · simp only [List.length_take]; omega
         · rw [toInt32_of_range (by omega) (by omega)]; omega)
  exact key _ rfl

/-- C22: a negative size is not a bound on the copy. The parameter test of
`read_buffer` is `size == 0`, and `(size_t)size` of a negative `int` is above
every buffer length. With the bytes 1, 2, 3 buffered, `read_buffer(buf, -1, 0)`
copies all three bytes to the destination, returns 3 and empties the buffer,
while max(size, 0) is 0. -/
theorem read_buffer_negative_size_copies :
    (read_buffer exampleCodes smallClient false (-1) 0 id).ret = 3 ∧
    (read_buffer exampleCodes smallClient false (-1) 0 id).dst = [1, 2, 3] ∧
    (read_buffer exampleCodes smallClient false (-1) 0 id).client.response_buff_ = [] ∧
    (read_buffer exampleCodes smallClient false (-1) 0 id).client.read_offset_ = 103 ∧
    max (-1 : Int) 0 = 0 := by
  decide

/-! ### Offset bookkeeping and data arrival -/

/-- The client after data of the active stream, with `size > 0`: the delivered
bytes are at the end of the buffer and `read_offset_` is as before. -/
theorem on_data_appends (x : Externals) (c : BeQuicClient) (s : BeQuicSpdyClientStream)
    (bytes : List UInt8) (size : Int)
    (hid : s.id = c.current_stream_id_) (hsize : 0 < size) :
    (on_data x c (some s) (some bytes) size).client.response_buff_ =
      c.response_buff_ ++ bytes.take size.toNat ∧
    (on_data x c (some s) (some bytes) size).client.read_offset_ = c.read_offset_ := by
  have key : ∀ r, r = on_data x c (some s) (some bytes) size →
      r.client.response_buff_ = c.response_buff_ ++ bytes.take size.toNat ∧
      r.client.read_offset_ = c.read_offset_ := by
    intro r hr
    unfold on_data at hr
    simp only [hid, ne_eq, not_true_eq_false, if_false, hsize, gt_iff_lt, if_true] at hr
    repeat' (first | split at hr | dsimp only at hr)
    all_goals (subst hr; exact ⟨rfl, rfl⟩)
  exact key _ rfl

/-- C24: data from a stale sub-stream is ignored. When the stream of an
`on_data` call is null, or its id differs from `current_stream_id_`, the client
afterwards is the client before (so the buffer, `read_offset_`, `file_size_`,
`got_first_data_` and the block manager are as before), the stream is as it was
passed, and no waiter is notified. For the active stream with a non-null buffer
and `0 < size`, the buffer afterwards is the buffer before followed by the
first `size` bytes of the delivery, which are all of it when the delivery holds
`size` bytes; `read_offset_` is as before. -/
theorem on_data_stale_ignored (x : Externals) (c : BeQuicClient)
    (stream : Option BeQuicSpdyClientStream) (buf : Option (List UInt8)) (size : Int) :
    ((stream = none ∨ ∃ s, stream = some s ∧ s.id ≠ c.current_stream_id_) →
      (on_data x c stream buf size).client = c ∧
      (on_data x c stream buf size).stream = stream ∧
      (on_data x c stream buf size).notified = false) ∧
    (∀ (s : BeQuicSpdyClientStream) (bytes : List UInt8),
      stream = some s → s.id = c.current_stream_id_ → buf = some bytes → 0 < size →
      (on_data x c stream buf size).client.response_buff_ =
        c.response_buff_ ++ bytes.take size.toNat ∧
      (on_data x c stream buf size).client.read_offset_ = c.read_offset_ ∧
      (size = bytes.length →
        (on_data x c stream buf size).client.response_buff_ = c.response_buff_ ++ bytes)) := by
  constructor
  · rintro (rfl | ⟨s, rfl, hne⟩)
    · exact ⟨rfl, rfl, rfl⟩
    · simp [on_data, hne]
  · rintro s bytes rfl hid rfl hsize
    obtain ⟨hb, ho⟩ := on_data_appends x c s bytes size hid hsize
    refine ⟨hb, ho, ?_⟩
    intro hlen
    rw [hb, hlen, Int.toNat_ofNat, List.take_length]

theorem on_data_stale_ignored_witness :
    smallClient.current_stream_id_ = 4 ∧
    ((on_data exampleExternals smallClient (some (BeQuicSpdyClientStream.create 8 []))
        (some [4, 5]) 2).client = smallClient ∧
      (on_data exampleExternals smallClient (some (BeQuicSpdyClientStream.create 8 []))
        (some [4, 5]) 2).stream = some (BeQuicSpdyClientStream.create 8 []) ∧
      (on_data exampleExternals smallClient (some (BeQuicSpdyClientStream.create 8 []))
        (some [4, 5]) 2).notified = false) ∧
    (on_data exampleExternals smallClient (some (BeQuicSpdyClientStream.create 4 []))
        (some [4, 5]) 2).client.response_buff_ = smallClient.response_buff_ ++ [4, 5] ∧
    smallClient.response_buff_ ++ [4, 5] = [1, 2, 3, 4, 5] :=
  ⟨by decide,
    (on_data_stale_ignored exampleExternals smallClient
      (some (BeQuicSpdyClientStream.create 8 [])) (some [4, 5]) 2).1
      (Or.inr ⟨_, rfl, by decide⟩),
    ((on_data_stale_ignored exampleExternals smallClient
      (some (BeQuicSpdyClientStream.create 4 [])) (some [4, 5]) 2).2
      (BeQuicSpdyClientStream.create 4 []) [4, 5] rfl (by decide) rfl (by decide)).2.2
      (by decide),
    by decide⟩

end BeQuic
